import Mathlib

/-!
# RDMA SoftRoCE demo: endpoint lifecycle and transfer loop

A shallow embedding of `rdma_server.c` and `rdma_client_simple.c`, and of
`init_rdma_context` of `simple_rdma_example.c`.

The verbs / connection-management provider is outside the program, so every
reply it gives (returned pointers, return codes, event kinds, completion
statuses, clock readings, the value of the volatile `running` flag at each
read) is taken from an explicit environment record.  Each function returns,
next to its C result, the list of provider calls it issued, in program order.

Pointers are natural numbers with `0` for `NULL`; `int` values are `Int`;
`uint64_t` is `Nat` reduced modulo `2 ^ 64` where the code adds to it.
-/

namespace RdmaDemo

/-! ## Constants -/

/-- The macro `BUFFER_SIZE (1024 * 1024)` of both programs. -/
def BUFFER_SIZE : Nat := 1024 * 1024

/-- The macro `MAX_CONNECTIONS` of the server. -/
def MAX_CONNECTIONS : Nat := 10

/-- The macro `PORT`. -/
def PORT : Nat := 18515

/-- Enumerator `IBV_WC_SUCCESS` of `enum ibv_wc_status` (infiniband/verbs.h). -/
def IBV_WC_SUCCESS : Nat := 0

/-- Enumerator `IBV_PORT_ACTIVE` of `enum ibv_port_state` (infiniband/verbs.h). -/
def IBV_PORT_ACTIVE : Nat := 4

/-- Enumerator `RDMA_CM_EVENT_CONNECT_REQUEST` (rdma/rdma_cma.h). -/
def RDMA_CM_EVENT_CONNECT_REQUEST : Nat := 4

/-- Enumerator `RDMA_CM_EVENT_ESTABLISHED` (rdma/rdma_cma.h). -/
def RDMA_CM_EVENT_ESTABLISHED : Nat := 9

/-- Width of `uint64_t bytes_transferred`. -/
def UINT64_MOD : Nat := 2 ^ 64

/-- The operating states of a queue pair, `enum ibv_qp_state`. -/
inductive ibv_qp_state where
  | IBV_QPS_RESET
  | IBV_QPS_INIT
  | IBV_QPS_RTR
  | IBV_QPS_RTS
  | IBV_QPS_SQD
  | IBV_QPS_SQE
  | IBV_QPS_ERR
  deriving DecidableEq, Repr

/-! ## Provider calls -/

/-- One call into libibverbs / librdmacm / libc made by the programs.  Release
calls carry the handle they are applied to, `ibv_modify_qp` the requested
`qp_attr.qp_state`, and the two data-path calls the value they returned. -/
inductive Call where
  | ibv_get_device_list
  | ibv_open_device
  | ibv_alloc_pd
  | ibv_query_port
  | ibv_create_cq
  | malloc
  | ibv_reg_mr
  | ibv_create_qp
  | ibv_free_device_list
  | rdma_create_id
  | rdma_getaddrinfo
  | rdma_bind_addr
  | rdma_listen
  | rdma_get_cm_event
  | rdma_accept
  | ibv_modify_qp (target : ibv_qp_state)
  | rdma_freeaddrinfo
  | ibv_post_send (ret : Int)
  | ibv_poll_cq (ret : Int)
  | ibv_destroy_qp (h : Nat)
  | ibv_dereg_mr (h : Nat)
  | ibv_destroy_cq (h : Nat)
  | ibv_dealloc_pd (h : Nat)
  | ibv_close_device (h : Nat)
  | free (h : Nat)
  | rdma_destroy_id (h : Nat)
  deriving DecidableEq, Repr

/-- The kinds of resource an endpoint owns. -/
inductive Resource where
  | device_context
  | protection_domain
  | completion_queue
  | buffer
  | memory_region
  | queue_pair
  | cm_identifier
  deriving DecidableEq, Repr

/-- The resource a call creates, if it is a creation call. -/
def Call.creates : Call → Option Resource
  | .ibv_open_device => some .device_context
  | .ibv_alloc_pd => some .protection_domain
  | .ibv_create_cq => some .completion_queue
  | .malloc => some .buffer
  | .ibv_reg_mr => some .memory_region
  | .ibv_create_qp => some .queue_pair
  | _ => none

/-- The resource a call releases, if it is a release call. -/
def Call.releases : Call → Option Resource
  | .ibv_destroy_qp _ => some .queue_pair
  | .ibv_dereg_mr _ => some .memory_region
  | .ibv_destroy_cq _ => some .completion_queue
  | .ibv_dealloc_pd _ => some .protection_domain
  | .ibv_close_device _ => some .device_context
  | .free _ => some .buffer
  | .rdma_destroy_id _ => some .cm_identifier
  | _ => none

/-- Whether a call is `ibv_post_send`. -/
def Call.isPost : Call → Bool
  | .ibv_post_send _ => true
  | _ => false

/-- Whether a call is `ibv_poll_cq`. -/
def Call.isPoll : Call → Bool
  | .ibv_poll_cq _ => true
  | _ => false

/-- Whether a call is an `ibv_poll_cq` that returned a completion. -/
def Call.isCompletion : Call → Bool
  | .ibv_poll_cq ret => decide (0 < ret)
  | _ => false

/-- The target state of a call, if it is `ibv_modify_qp`. -/
def Call.modifyTarget : Call → Option ibv_qp_state
  | .ibv_modify_qp t => some t
  | _ => none

/-! ## The endpoint -/

/-- A `struct timespec`. -/
structure timespec where
  tv_sec : Int
  tv_nsec : Int
  deriving DecidableEq, Repr

/-- The aggregate `struct rdma_context` of `rdma_server.c`.  The client's
struct is the same without `cm_id` and `comp_channel`; the client functions
below never touch those two fields. -/
structure rdma_context where
  context : Nat
  pd : Nat
  cq : Nat
  qp : Nat
  mr : Nat
  buffer : Nat
  cm_id : Nat
  comp_channel : Nat
  connected : Int
  bytes_transferred : Nat
  start_time : timespec
  end_time : timespec
  deriving DecidableEq, Repr

/-- The initialiser `struct rdma_context ctx = {0}` of both `main`s. -/
def rdma_context.zero : rdma_context :=
  { context := 0, pd := 0, cq := 0, qp := 0, mr := 0, buffer := 0, cm_id := 0,
    comp_channel := 0, connected := 0, bytes_transferred := 0,
    start_time := ⟨0, 0⟩, end_time := ⟨0, 0⟩ }

/-! ## setup_rdma_resources -/

/-- What the provider answers during `setup_rdma_resources`. -/
structure SetupEnv where
  dev_list : Nat
  num_devices : Int
  open_device : Nat
  alloc_pd : Nat
  query_port : Int
  port_state : Nat
  create_cq : Nat
  malloc : Nat
  reg_mr : Nat
  create_qp : Nat

/-- The result of a function returning `int` that also updates the endpoint. -/
structure IntResult where
  ret : Int
  ctx : rdma_context
  calls : List Call
  deriving DecidableEq, Repr

/-- The function `setup_rdma_resources`, identical in `rdma_server.c` and
`rdma_client_simple.c` up to how the buffer is filled. -/
def setup_rdma_resources (env : SetupEnv) (ctx : rdma_context) : IntResult :=
  let calls := [Call.ibv_get_device_list]
  if env.dev_list = 0 then ⟨-1, ctx, calls⟩
  else if env.num_devices = 0 then ⟨-1, ctx, calls⟩
  else
    let ctx := { ctx with context := env.open_device }
    let calls := calls ++ [Call.ibv_open_device]
    if ctx.context = 0 then ⟨-1, ctx, calls⟩
    else
      let ctx := { ctx with pd := env.alloc_pd }
      let calls := calls ++ [Call.ibv_alloc_pd]
      if ctx.pd = 0 then ⟨-1, ctx, calls⟩
      else
        let calls := calls ++ [Call.ibv_query_port]
        if env.query_port ≠ 0 then ⟨-1, ctx, calls⟩
        else if env.port_state ≠ IBV_PORT_ACTIVE then ⟨-1, ctx, calls⟩
        else
          let ctx := { ctx with cq := env.create_cq }
          let calls := calls ++ [Call.ibv_create_cq]
          if ctx.cq = 0 then ⟨-1, ctx, calls⟩
          else
            let ctx := { ctx with buffer := env.malloc }
            let calls := calls ++ [Call.malloc]
            if ctx.buffer = 0 then ⟨-1, ctx, calls⟩
            else
              let ctx := { ctx with mr := env.reg_mr }
              let calls := calls ++ [Call.ibv_reg_mr]
              if ctx.mr = 0 then ⟨-1, ctx, calls⟩
              else
                let ctx := { ctx with qp := env.create_qp }
                let calls := calls ++ [Call.ibv_create_qp]
                if ctx.qp = 0 then ⟨-1, ctx, calls⟩
                else ⟨0, ctx, calls ++ [Call.ibv_free_device_list]⟩

/-! ## setup_rdma_connection (server only) -/

/-- What the provider answers during `setup_rdma_connection`: the return code
of each call, and for the two event waits the identifier stored through
`&ctx->cm_id` and the event kind read from it. -/
structure ConnEnv where
  create_id : Int
  getaddrinfo : Int
  bind_addr : Int
  listen : Int
  get_cm_event1 : Int
  cm_id1 : Nat
  event1 : Nat
  accept : Int
  get_cm_event2 : Int
  cm_id2 : Nat
  event2 : Nat
  modify_rtr : Int
  modify_rts : Int

/-- The function `setup_rdma_connection` of `rdma_server.c`. -/
def setup_rdma_connection (env : ConnEnv) (ctx : rdma_context) : IntResult :=
  let calls := [Call.rdma_create_id]
  if env.create_id ≠ 0 then ⟨-1, ctx, calls⟩
  else
    let calls := calls ++ [Call.rdma_getaddrinfo]
    if env.getaddrinfo ≠ 0 then ⟨-1, ctx, calls⟩
    else
      let calls := calls ++ [Call.rdma_bind_addr]
      if env.bind_addr ≠ 0 then ⟨-1, ctx, calls⟩
      else
        let calls := calls ++ [Call.rdma_listen]
        if env.listen ≠ 0 then ⟨-1, ctx, calls⟩
        else
          let calls := calls ++ [Call.rdma_get_cm_event]
          if env.get_cm_event1 ≠ 0 then ⟨-1, ctx, calls⟩
          else
            let ctx := { ctx with cm_id := env.cm_id1 }
            if env.event1 ≠ RDMA_CM_EVENT_CONNECT_REQUEST then ⟨-1, ctx, calls⟩
            else
              let calls := calls ++ [Call.rdma_accept]
              if env.accept ≠ 0 then ⟨-1, ctx, calls⟩
              else
                let calls := calls ++ [Call.rdma_get_cm_event]
                if env.get_cm_event2 ≠ 0 then ⟨-1, ctx, calls⟩
                else
                  let ctx := { ctx with cm_id := env.cm_id2 }
                  if env.event2 ≠ RDMA_CM_EVENT_ESTABLISHED then ⟨-1, ctx, calls⟩
                  else
                    let calls := calls ++ [Call.ibv_modify_qp .IBV_QPS_RTR]
                    if env.modify_rtr ≠ 0 then ⟨-1, ctx, calls⟩
                    else
                      let calls := calls ++ [Call.ibv_modify_qp .IBV_QPS_RTS]
                      if env.modify_rts ≠ 0 then ⟨-1, ctx, calls⟩
                      else
                        let ctx := { ctx with connected := 1 }
                        ⟨0, ctx, calls ++ [Call.rdma_freeaddrinfo]⟩

/-! ## cleanup_rdma_resources -/

/-- The function `cleanup_rdma_resources` of `rdma_server.c`: the release calls
it issues, in order.  It takes the endpoint by pointer and writes no field of
it, so the endpoint after the call is the endpoint before it. -/
def Server.cleanup_rdma_resources (ctx : rdma_context) : List Call :=
  let calls : List Call := []
  let calls := if ctx.qp ≠ 0 then calls ++ [Call.ibv_destroy_qp ctx.qp] else calls
  let calls := if ctx.mr ≠ 0 then calls ++ [Call.ibv_dereg_mr ctx.mr] else calls
  let calls := if ctx.cq ≠ 0 then calls ++ [Call.ibv_destroy_cq ctx.cq] else calls
  let calls := if ctx.pd ≠ 0 then calls ++ [Call.ibv_dealloc_pd ctx.pd] else calls
  let calls := if ctx.context ≠ 0 then calls ++ [Call.ibv_close_device ctx.context] else calls
  let calls := if ctx.buffer ≠ 0 then calls ++ [Call.free ctx.buffer] else calls
  let calls := if ctx.cm_id ≠ 0 then calls ++ [Call.rdma_destroy_id ctx.cm_id] else calls
  calls

/-- The function `cleanup_rdma_resources` of `rdma_client_simple.c`. -/
def Client.cleanup_rdma_resources (ctx : rdma_context) : List Call :=
  let calls : List Call := []
  let calls := if ctx.qp ≠ 0 then calls ++ [Call.ibv_destroy_qp ctx.qp] else calls
  let calls := if ctx.mr ≠ 0 then calls ++ [Call.ibv_dereg_mr ctx.mr] else calls
  let calls := if ctx.cq ≠ 0 then calls ++ [Call.ibv_destroy_cq ctx.cq] else calls
  let calls := if ctx.pd ≠ 0 then calls ++ [Call.ibv_dealloc_pd ctx.pd] else calls
  let calls := if ctx.context ≠ 0 then calls ++ [Call.ibv_close_device ctx.context] else calls
  let calls := if ctx.buffer ≠ 0 then calls ++ [Call.free ctx.buffer] else calls
  calls

/-- Two calls of the server's `cleanup_rdma_resources` on the same endpoint, one
after the other: the calls of the first, the calls of the second. -/
def Server.cleanup_twice (ctx : rdma_context) : List Call × List Call :=
  let first := Server.cleanup_rdma_resources ctx
  let second := Server.cleanup_rdma_resources ctx
  (first, second)

/-- Two calls of the client's `cleanup_rdma_resources` on the same endpoint. -/
def Client.cleanup_twice (ctx : rdma_context) : List Call × List Call :=
  let first := Client.cleanup_rdma_resources ctx
  let second := Client.cleanup_rdma_resources ctx
  (first, second)

/-! ## perform_rdma_operations -/

/-- What the outside world answers during `perform_rdma_operations`.  The
replies are indexed by the loop counter `i` of the `for` loop and, inside the
`do ... while` poll loop of iteration `i`, by the number `e` of polls already
made in that iteration.

* `running_top i`: the value of the volatile flag `running` read by the loop
  test `i < iterations && running` before iteration `i`;
* `post_send i`: the return value of `ibv_post_send` in iteration `i`;
* `poll_cq i e`: the return value of poll number `e` of iteration `i`, and the
  `status` of the completion it stores in `wc` when that value is positive;
* `running_spin i e`: the value of `running` read by `ret == 0 && running`
  after poll number `e` of iteration `i` returned `0`;
* `wc_status`: the indeterminate `status` of the uninitialised local `wc`;
* `start_time`, `end_time`: the two `clock_gettime` readings. -/
structure TransferEnv where
  running_top : Nat → Bool
  post_send : Nat → Int
  poll_cq : Nat → Nat → Int × Nat
  running_spin : Nat → Nat → Bool
  wc_status : Nat
  start_time : timespec
  end_time : timespec

/-- The variables the transfer loop changes: the counter `i`, the endpoint
(only `bytes_transferred` is written), `wc.status`, and the calls made. -/
structure LoopState where
  i : Nat
  ctx : rdma_context
  wc_status : Nat
  calls : List Call
  deriving DecidableEq, Repr

/-- The loop `do { ret = ibv_poll_cq(ctx->cq, 1, &wc); } while (ret == 0 && running);`
of iteration `i`, started with `e` polls already made.  It returns the last
`ret`, `wc.status` and the calls; `none` when `fuel` polls did not end it. -/
def poll_cq_wait (env : TransferEnv) (i : Nat) :
    Nat → Nat → Nat → List Call → Option (Int × Nat × List Call)
  | 0, _, _, _ => none
  | fuel + 1, e, wc, calls =>
    let ret := (env.poll_cq i e).1
    let wc := if 0 < ret then (env.poll_cq i e).2 else wc
    let calls := calls ++ [Call.ibv_poll_cq ret]
    if ret = 0 ∧ env.running_spin i e = true then
      poll_cq_wait env i fuel (e + 1) wc calls
    else some (ret, wc, calls)

/-- How one pass through the `for` loop ends: with `i++` and another test of the
loop condition, or with the loop left (condition false, or `break`). -/
inductive LoopStep where
  | again (s : LoopState)
  | exit (s : LoopState)
  deriving DecidableEq, Repr

/-- One pass of `for (i = 0; i < iterations && running; i++) { ... }`: the test
of the loop condition, the body, and the increment.  `fuel` bounds the polls of
the poll loop. -/
def loop_iteration (iterations : Nat) (env : TransferEnv) (fuel : Nat) (s : LoopState) :
    Option LoopStep :=
  if s.i < iterations ∧ env.running_top s.i = true then
    let ret := env.post_send s.i
    let calls := s.calls ++ [Call.ibv_post_send ret]
    if ret ≠ 0 then some (.exit { s with calls := calls })
    else
      match poll_cq_wait env s.i fuel 0 s.wc_status calls with
      | none => none
      | some (ret, wc, calls) =>
        if ret < 0 then some (.exit { s with wc_status := wc, calls := calls })
        else if wc ≠ IBV_WC_SUCCESS then some (.exit { s with wc_status := wc, calls := calls })
        else
          some (.again
            { i := s.i + 1
              ctx := { s.ctx with
                bytes_transferred := (s.ctx.bytes_transferred + BUFFER_SIZE) % UINT64_MOD }
              wc_status := wc
              calls := calls })
  else some (.exit s)

/-- The whole `for` loop from state `s`: the state in which it is left.  `fuel`
bounds the polls of each poll loop, `gas` the passes through the loop. -/
def transfer_loop (iterations : Nat) (env : TransferEnv) (fuel : Nat) :
    Nat → LoopState → Option LoopState
  | 0, _ => none
  | gas + 1, s =>
    match loop_iteration iterations env fuel s with
    | none => none
    | some (.exit s) => some s
    | some (.again s) => transfer_loop iterations env fuel gas s

/-- The state of the `for` loop after `n` passes from `s`, when none of them
left the loop; the state in which the loop was left otherwise. -/
def after_iterations (iterations : Nat) (env : TransferEnv) (fuel : Nat) :
    Nat → LoopState → Option LoopStep
  | 0, s => some (.again s)
  | n + 1, s =>
    match loop_iteration iterations env fuel s with
    | none => none
    | some (.exit s) => some (.exit s)
    | some (.again s) => after_iterations iterations env fuel n s

/-- The quotient `x / y` of two doubles, in exact arithmetic; `none` stands for
the non-finite result (infinity or NaN) of a division by zero. -/
def fdiv (x y : ℚ) : Option ℚ :=
  if y = 0 then none else some (x / y)

/-- The expression `(end.tv_sec - start.tv_sec) + (end.tv_nsec - start.tv_nsec) / 1e9`,
in exact arithmetic. -/
def elapsed_seconds (start_time end_time : timespec) : ℚ :=
  ((end_time.tv_sec - start_time.tv_sec : Int) : ℚ)
    + ((end_time.tv_nsec - start_time.tv_nsec : Int) : ℚ) / 1000000000

/-- The expression `(ctx->bytes_transferred * 8.0) / (elapsed * 1e6)`. -/
def throughput_mbps (bytes_transferred : Nat) (elapsed : ℚ) : Option ℚ :=
  fdiv ((bytes_transferred : ℚ) * 8) (elapsed * 1000000)

/-- The expression `ctx->bytes_transferred / (elapsed * 1e6)`. -/
def throughput_mbs (bytes_transferred : Nat) (elapsed : ℚ) : Option ℚ :=
  fdiv (bytes_transferred : ℚ) (elapsed * 1000000)

/-- The five numbers printed under "RDMA Performance Results". -/
structure Report where
  operations : Nat
  bytes : Nat
  elapsed : ℚ
  mbps : Option ℚ
  mbs : Option ℚ

/-- The result of `perform_rdma_operations`: the endpoint, the printed report,
the calls made. -/
structure TransferResult where
  ctx : rdma_context
  report : Report
  calls : List Call

/-- The report computed after the loop from the endpoint and the final `i`. -/
def make_report (ctx : rdma_context) (i : Nat) : Report :=
  let elapsed := elapsed_seconds ctx.start_time ctx.end_time
  { operations := i
    bytes := ctx.bytes_transferred
    elapsed := elapsed
    mbps := throughput_mbps ctx.bytes_transferred elapsed
    mbs := throughput_mbs ctx.bytes_transferred elapsed }

/-- The state in which the `for` loop is entered: `clock_gettime` has stored the
start time, `i = 0`, `wc` is uninitialised, no call has been made. -/
def loop_entry (env : TransferEnv) (ctx : rdma_context) : LoopState :=
  { i := 0
    ctx := { ctx with start_time := env.start_time }
    wc_status := env.wc_status
    calls := [] }

/-- In iteration `i` the poll loop makes `d` polls that return `0` and then one
that returns a completion whose status is `st`. -/
def CompletesAfter (env : TransferEnv) (i d st : Nat) : Prop :=
  (∀ e, e < d → (env.poll_cq i e).1 = 0) ∧ 0 < (env.poll_cq i d).1 ∧ (env.poll_cq i d).2 = st

/-- The function `perform_rdma_operations`, the same in both programs up to the
value of the local `iterations`.  `none` when `fuel` is not enough to see the
loop end. -/
def perform_rdma_operations (iterations : Nat) (env : TransferEnv) (fuel : Nat)
    (ctx : rdma_context) : Option TransferResult :=
  match transfer_loop iterations env fuel fuel (loop_entry env ctx) with
  | none => none
  | some s =>
    let ctx := { s.ctx with end_time := env.end_time }
    some { ctx := ctx, report := make_report ctx s.i, calls := s.calls }

/-- The local `int iterations = 100` of the client. -/
def Client.iterations : Nat := 100

/-- The local `int iterations = 1000` of the server. -/
def Server.iterations : Nat := 1000

/-- The function `perform_rdma_operations` of `rdma_client_simple.c`. -/
def Client.perform_rdma_operations (env : TransferEnv) (fuel : Nat) (ctx : rdma_context) :
    Option TransferResult :=
  RdmaDemo.perform_rdma_operations Client.iterations env fuel ctx

/-- The function `perform_rdma_operations` of `rdma_server.c`. -/
def Server.perform_rdma_operations (env : TransferEnv) (fuel : Nat) (ctx : rdma_context) :
    Option TransferResult :=
  RdmaDemo.perform_rdma_operations Server.iterations env fuel ctx

/-! ## main -/

/-- The result of a `main`: exit status, the endpoint at exit, all calls made,
and the endpoint as it was when `perform_rdma_operations` was entered (if it
was). -/
structure MainResult where
  status : Int
  ctx : rdma_context
  calls : List Call
  at_transfer : Option rdma_context

/-- The function `main` of `rdma_client_simple.c`. -/
def Client.main (senv : SetupEnv) (tenv : TransferEnv) (fuel : Nat) : Option MainResult :=
  let ctx := rdma_context.zero
  let r := setup_rdma_resources senv ctx
  if r.ret ≠ 0 then
    some { status := 1, ctx := r.ctx, calls := r.calls ++ Client.cleanup_rdma_resources r.ctx,
           at_transfer := none }
  else
    match Client.perform_rdma_operations tenv fuel r.ctx with
    | none => none
    | some t =>
      some { status := 0, ctx := t.ctx,
             calls := r.calls ++ t.calls ++ Client.cleanup_rdma_resources t.ctx,
             at_transfer := some r.ctx }

/-- The function `main` of `rdma_server.c`. -/
def Server.main (senv : SetupEnv) (cenv : ConnEnv) (tenv : TransferEnv) (fuel : Nat) :
    Option MainResult :=
  let ctx := rdma_context.zero
  let r := setup_rdma_resources senv ctx
  if r.ret ≠ 0 then
    some { status := 1, ctx := r.ctx, calls := r.calls ++ Server.cleanup_rdma_resources r.ctx,
           at_transfer := none }
  else
    let c := setup_rdma_connection cenv r.ctx
    if c.ret ≠ 0 then
      some { status := 1, ctx := c.ctx,
             calls := r.calls ++ c.calls ++ Server.cleanup_rdma_resources c.ctx,
             at_transfer := none }
    else
      match Server.perform_rdma_operations tenv fuel c.ctx with
      | none => none
      | some t =>
        some { status := 0, ctx := t.ctx,
               calls := r.calls ++ c.calls ++ t.calls ++ Server.cleanup_rdma_resources t.ctx,
               at_transfer := some c.ctx }

/-- The calls of a poll loop that made `d` empty polls and a last poll returning `ret`. -/
def spin_calls (d : Nat) (ret : Int) : List Call :=
  List.replicate d (Call.ibv_poll_cq 0) ++ [Call.ibv_poll_cq ret]

/-- A world in which the flag stays set, every post succeeds, and every poll
returns one completion with success status; the clock readings are one second
apart. -/
def env_all_success : TransferEnv :=
  { running_top := fun _ => true
    post_send := fun _ => 0
    poll_cq := fun _ _ => (1, IBV_WC_SUCCESS)
    running_spin := fun _ _ => true
    wc_status := 0
    start_time := ⟨0, 0⟩
    end_time := ⟨1, 0⟩ }

/-- A world in which the flag stays set, every post succeeds, and every poll
returns one completion: with success status in iterations other than 5, with
status 10 (`IBV_WC_REM_ACCESS_ERR`) in iteration 5. -/
def env_fail_at_5 : TransferEnv :=
  { running_top := fun _ => true
    post_send := fun _ => 0
    poll_cq := fun i _ => (1, if i = 5 then 10 else IBV_WC_SUCCESS)
    running_spin := fun _ _ => true
    wc_status := 0
    start_time := ⟨0, 0⟩
    end_time := ⟨1, 0⟩ }

/-- A world in which pass 0 receives a successful completion at its first poll,
and in pass 1 the post succeeds, the first poll is empty, and the flag is then
read as cleared (and stays cleared). -/
def env_cancel_in_poll : TransferEnv :=
  { running_top := fun i => decide (i < 2)
    post_send := fun _ => 0
    poll_cq := fun i _ => if i = 0 then (1, IBV_WC_SUCCESS) else (0, 0)
    running_spin := fun _ _ => false
    wc_status := 0
    start_time := ⟨0, 0⟩
    end_time := ⟨1, 0⟩ }

/-- A world in which the flag is read as cleared at entry and the two clock
readings are equal. -/
def env_zero_duration : TransferEnv :=
  { running_top := fun _ => false
    post_send := fun _ => 0
    poll_cq := fun _ _ => (1, IBV_WC_SUCCESS)
    running_spin := fun _ _ => false
    wc_status := 0
    start_time := ⟨7, 500⟩
    end_time := ⟨7, 500⟩ }

/-- The state carried by a step of the loop. -/
def LoopStep.state : LoopStep → LoopState
  | .again s => s
  | .exit s => s

/-- A provider with one device on which every step of `setup_rdma_resources`
succeeds; the handles returned are `2, ..., 7`. -/
def env_setup_ok : SetupEnv :=
  { dev_list := 1
    num_devices := 1
    open_device := 2
    alloc_pd := 3
    query_port := 0
    port_state := IBV_PORT_ACTIVE
    create_cq := 4
    malloc := 5
    reg_mr := 6
    create_qp := 7 }

/-- A provider on which every step of `setup_rdma_connection` succeeds and the
two events are connect-request and established. -/
def env_conn_ok : ConnEnv :=
  { create_id := 0
    getaddrinfo := 0
    bind_addr := 0
    listen := 0
    get_cm_event1 := 0
    cm_id1 := 8
    event1 := RDMA_CM_EVENT_CONNECT_REQUEST
    accept := 0
    get_cm_event2 := 0
    cm_id2 := 8
    event2 := RDMA_CM_EVENT_ESTABLISHED
    modify_rtr := 0
    modify_rts := 0 }

/-- The handle a release call is applied to (`0` for the other calls). -/
def Call.handle : Call → Nat
  | .ibv_destroy_qp h => h
  | .ibv_dereg_mr h => h
  | .ibv_destroy_cq h => h
  | .ibv_dealloc_pd h => h
  | .ibv_close_device h => h
  | .free h => h
  | .rdma_destroy_id h => h
  | _ => 0

/-- The target states requested through `ibv_modify_qp` among `calls`, in order. -/
def modify_targets (calls : List Call) : List ibv_qp_state :=
  calls.filterMap Call.modifyTarget

/-- The resources created by `calls`, in order. -/
def creation_order (calls : List Call) : List Resource :=
  calls.filterMap Call.creates

/-- The resources released by `calls`, in order, the connection-management
identifier left aside. -/
def release_order (calls : List Call) : List Resource :=
  (calls.filterMap Call.releases).filter (fun r => r ≠ Resource.cm_identifier)

/-- The calls of a run of `setup_rdma_resources` in which every step succeeds. -/
def setup_calls : List Call :=
  [Call.ibv_get_device_list, Call.ibv_open_device, Call.ibv_alloc_pd, Call.ibv_query_port,
   Call.ibv_create_cq, Call.malloc, Call.ibv_reg_mr, Call.ibv_create_qp,
   Call.ibv_free_device_list]

/-- Every step of `setup_rdma_resources` succeeds on this provider. -/
def SetupEnv.ok (env : SetupEnv) : Prop :=
  env.dev_list ≠ 0 ∧ env.num_devices ≠ 0 ∧ env.open_device ≠ 0 ∧ env.alloc_pd ≠ 0 ∧
    env.query_port = 0 ∧ env.port_state = IBV_PORT_ACTIVE ∧ env.create_cq ≠ 0 ∧
    env.malloc ≠ 0 ∧ env.reg_mr ≠ 0 ∧ env.create_qp ≠ 0

/-- The calls of a run of `setup_rdma_connection` in which every step succeeds. -/
def handshake_calls : List Call :=
  [Call.rdma_create_id, Call.rdma_getaddrinfo, Call.rdma_bind_addr, Call.rdma_listen,
   Call.rdma_get_cm_event, Call.rdma_accept, Call.rdma_get_cm_event,
   Call.ibv_modify_qp ibv_qp_state.IBV_QPS_RTR, Call.ibv_modify_qp ibv_qp_state.IBV_QPS_RTS,
   Call.rdma_freeaddrinfo]

/-- Every connection-management call succeeds, the first event is connect-request,
the second is established, and both queue-pair modifications succeed. -/
def ConnEnv.ok (env : ConnEnv) : Prop :=
  env.create_id = 0 ∧ env.getaddrinfo = 0 ∧ env.bind_addr = 0 ∧ env.listen = 0 ∧
    env.get_cm_event1 = 0 ∧ env.event1 = RDMA_CM_EVENT_CONNECT_REQUEST ∧ env.accept = 0 ∧
    env.get_cm_event2 = 0 ∧ env.event2 = RDMA_CM_EVENT_ESTABLISHED ∧
    env.modify_rtr = 0 ∧ env.modify_rts = 0

/-- For each of the nine steps of the handshake that issue a call (create id,
getaddrinfo, bind, listen, first event wait, accept, second event wait, modify
to RTR, modify to RTS), whether the provider lets it succeed; an event wait
succeeds when the call does and the event is of the expected kind. -/
def ConnEnv.step_ok (env : ConnEnv) : List Bool :=
  [decide (env.create_id = 0), decide (env.getaddrinfo = 0), decide (env.bind_addr = 0),
   decide (env.listen = 0),
   decide (env.get_cm_event1 = 0 ∧ env.event1 = RDMA_CM_EVENT_CONNECT_REQUEST),
   decide (env.accept = 0),
   decide (env.get_cm_event2 = 0 ∧ env.event2 = RDMA_CM_EVENT_ESTABLISHED),
   decide (env.modify_rtr = 0), decide (env.modify_rts = 0)]

/-- The number of steps that succeed before the first one that fails (`9` when
none fails). -/
def ConnEnv.first_failure (env : ConnEnv) : Nat :=
  (env.step_ok.takeWhile id).length

/-- The release calls for the seven handles of an endpoint, in the order in which
the server's `cleanup_rdma_resources` tests the handles. -/
def Server.release_calls (ctx : rdma_context) : List Call :=
  [Call.ibv_destroy_qp ctx.qp, Call.ibv_dereg_mr ctx.mr, Call.ibv_destroy_cq ctx.cq,
   Call.ibv_dealloc_pd ctx.pd, Call.ibv_close_device ctx.context, Call.free ctx.buffer,
   Call.rdma_destroy_id ctx.cm_id]

/-- The release calls for the six handles of the client's endpoint, in the order
in which the client's `cleanup_rdma_resources` tests the handles. -/
def Client.release_calls (ctx : rdma_context) : List Call :=
  [Call.ibv_destroy_qp ctx.qp, Call.ibv_dereg_mr ctx.mr, Call.ibv_destroy_cq ctx.cq,
   Call.ibv_dealloc_pd ctx.pd, Call.ibv_close_device ctx.context, Call.free ctx.buffer]

/-- A provider on which the device list is obtained and the device is opened,
and the allocation of the protection domain then fails. -/
def env_pd_fails : SetupEnv :=
  { dev_list := 1
    num_devices := 1
    open_device := 2
    alloc_pd := 0
    query_port := 0
    port_state := IBV_PORT_ACTIVE
    create_cq := 4
    malloc := 5
    reg_mr := 6
    create_qp := 7 }

/-! ## simple_rdma_example.c -/

/-- The kinds of resource `init_rdma_context` of `simple_rdma_example.c` acquires. -/
inductive Example.Resource where
  | device_list
  | device_context
  | protection_domain
  | buffer
  | memory_region
  | completion_queue
  | queue_pair
  deriving DecidableEq, Repr

/-- One acquisition or release call made by `init_rdma_context` of
`simple_rdma_example.c`.  An acquisition call carries the pointer it returned
(`0` for `NULL`), a release call the pointer it is applied to.  The calls of
`printf` and `ibv_get_device_name` are left out. -/
inductive Example.Call where
  | ibv_get_device_list (ret : Nat)
  | ibv_open_device (ret : Nat)
  | ibv_alloc_pd (ret : Nat)
  | malloc (ret : Nat)
  | ibv_reg_mr (ret : Nat)
  | ibv_create_cq (ret : Nat)
  | ibv_create_qp (ret : Nat)
  | ibv_free_device_list (h : Nat)
  | ibv_close_device (h : Nat)
  | ibv_dealloc_pd (h : Nat)
  | free (h : Nat)
  | ibv_dereg_mr (h : Nat)
  | ibv_destroy_cq (h : Nat)
  | ibv_destroy_qp (h : Nat)
  deriving DecidableEq, Repr

/-- The resource a call acquired and its handle, if it is an acquisition call
that did not return `NULL`. -/
def Example.Call.acquired : Example.Call → Option (Example.Resource × Nat)
  | .ibv_get_device_list ret => if ret ≠ 0 then some (.device_list, ret) else none
  | .ibv_open_device ret => if ret ≠ 0 then some (.device_context, ret) else none
  | .ibv_alloc_pd ret => if ret ≠ 0 then some (.protection_domain, ret) else none
  | .malloc ret => if ret ≠ 0 then some (.buffer, ret) else none
  | .ibv_reg_mr ret => if ret ≠ 0 then some (.memory_region, ret) else none
  | .ibv_create_cq ret => if ret ≠ 0 then some (.completion_queue, ret) else none
  | .ibv_create_qp ret => if ret ≠ 0 then some (.queue_pair, ret) else none
  | _ => none

/-- The resource a call releases and its handle, if it is a release call. -/
def Example.Call.released : Example.Call → Option (Example.Resource × Nat)
  | .ibv_free_device_list h => some (.device_list, h)
  | .ibv_close_device h => some (.device_context, h)
  | .ibv_dealloc_pd h => some (.protection_domain, h)
  | .free h => some (.buffer, h)
  | .ibv_dereg_mr h => some (.memory_region, h)
  | .ibv_destroy_cq h => some (.completion_queue, h)
  | .ibv_destroy_qp h => some (.queue_pair, h)
  | _ => none

/-- The resources acquired by `calls`, in order of acquisition. -/
def Example.acquired (calls : List Example.Call) : List (Example.Resource × Nat) :=
  calls.filterMap Example.Call.acquired

/-- The resources released by `calls`, in order of release. -/
def Example.released (calls : List Example.Call) : List (Example.Resource × Nat) :=
  calls.filterMap Example.Call.released

/-- The aggregate `struct rdma_context` of `simple_rdma_example.c`. -/
structure Example.rdma_context where
  context : Nat
  pd : Nat
  mr : Nat
  cq : Nat
  qp : Nat
  buffer : Nat
  deriving DecidableEq, Repr

/-- What the provider answers during `init_rdma_context`. -/
structure Example.InitEnv where
  dev_list : Nat
  num_devices : Int
  open_device : Nat
  alloc_pd : Nat
  malloc : Nat
  reg_mr : Nat
  create_cq : Nat
  create_qp : Nat

/-- The result of `init_rdma_context`: the value returned, the endpoint, the calls. -/
structure Example.InitResult where
  ret : Int
  ctx : Example.rdma_context
  calls : List Example.Call
  deriving DecidableEq, Repr

/-- The function `init_rdma_context` of `simple_rdma_example.c`. -/
def Example.init_rdma_context (env : Example.InitEnv) (ctx : Example.rdma_context) :
    Example.InitResult :=
  let dev_list := env.dev_list
  let calls := [Example.Call.ibv_get_device_list dev_list]
  if dev_list = 0 then ⟨-1, ctx, calls⟩
  else if env.num_devices = 0 then
    ⟨-1, ctx, calls ++ [Example.Call.ibv_free_device_list dev_list]⟩
  else
    let ctx := { ctx with context := env.open_device }
    let calls := calls ++ [Example.Call.ibv_open_device ctx.context]
    if ctx.context = 0 then
      ⟨-1, ctx, calls ++ [Example.Call.ibv_free_device_list dev_list]⟩
    else
      let ctx := { ctx with pd := env.alloc_pd }
      let calls := calls ++ [Example.Call.ibv_alloc_pd ctx.pd]
      if ctx.pd = 0 then
        ⟨-1, ctx, calls ++ [Example.Call.ibv_close_device ctx.context,
          Example.Call.ibv_free_device_list dev_list]⟩
      else
        let ctx := { ctx with buffer := env.malloc }
        let calls := calls ++ [Example.Call.malloc ctx.buffer]
        if ctx.buffer = 0 then
          ⟨-1, ctx, calls ++ [Example.Call.ibv_dealloc_pd ctx.pd,
            Example.Call.ibv_close_device ctx.context,
            Example.Call.ibv_free_device_list dev_list]⟩
        else
          let ctx := { ctx with mr := env.reg_mr }
          let calls := calls ++ [Example.Call.ibv_reg_mr ctx.mr]
          if ctx.mr = 0 then
            ⟨-1, ctx, calls ++ [Example.Call.free ctx.buffer,
              Example.Call.ibv_dealloc_pd ctx.pd,
              Example.Call.ibv_close_device ctx.context,
              Example.Call.ibv_free_device_list dev_list]⟩
          else
            let ctx := { ctx with cq := env.create_cq }
            let calls := calls ++ [Example.Call.ibv_create_cq ctx.cq]
            if ctx.cq = 0 then
              ⟨-1, ctx, calls ++ [Example.Call.ibv_dereg_mr ctx.mr,
                Example.Call.free ctx.buffer,
                Example.Call.ibv_dealloc_pd ctx.pd,
                Example.Call.ibv_close_device ctx.context,
                Example.Call.ibv_free_device_list dev_list]⟩
            else
              let ctx := { ctx with qp := env.create_qp }
              let calls := calls ++ [Example.Call.ibv_create_qp ctx.qp]
              if ctx.qp = 0 then
                ⟨-1, ctx, calls ++ [Example.Call.ibv_destroy_cq ctx.cq,
                  Example.Call.ibv_dereg_mr ctx.mr,
                  Example.Call.free ctx.buffer,
                  Example.Call.ibv_dealloc_pd ctx.pd,
                  Example.Call.ibv_close_device ctx.context,
                  Example.Call.ibv_free_device_list dev_list]⟩
              else
                ⟨0, ctx, calls ++ [Example.Call.ibv_free_device_list dev_list]⟩

/-- Every step of `init_rdma_context` succeeds on this provider. -/
def Example.InitEnv.ok (env : Example.InitEnv) : Prop :=
  env.dev_list ≠ 0 ∧ env.num_devices ≠ 0 ∧ env.open_device ≠ 0 ∧ env.alloc_pd ≠ 0 ∧
    env.malloc ≠ 0 ∧ env.reg_mr ≠ 0 ∧ env.create_cq ≠ 0 ∧ env.create_qp ≠ 0

/-- The seven resources `init_rdma_context` acquires when every step succeeds, in
order of acquisition, with the handles the provider returns. -/
def Example.InitEnv.acquisitions (env : Example.InitEnv) : List (Example.Resource × Nat) :=
  [(Example.Resource.device_list, env.dev_list),
   (Example.Resource.device_context, env.open_device),
   (Example.Resource.protection_domain, env.alloc_pd),
   (Example.Resource.buffer, env.malloc),
   (Example.Resource.memory_region, env.reg_mr),
   (Example.Resource.completion_queue, env.create_cq),
   (Example.Resource.queue_pair, env.create_qp)]

/-! ## Lemmas on the poll loop and the transfer loop -/

/-- The poll loop, started at poll number `e`, leaves at poll number `e + d` when
the `d` polls before it returned `0` with the flag read as set, and that poll
returned non-zero or was followed by a read of the flag as cleared. -/
theorem poll_cq_wait_leaves (env : TransferEnv) (i : Nat) :
    ∀ (d fuel e wc : Nat) (calls : List Call),
      (∀ k, k < d → (env.poll_cq i (e + k)).1 = 0 ∧ env.running_spin i (e + k) = true) →
      ((env.poll_cq i (e + d)).1 ≠ 0 ∨ env.running_spin i (e + d) = false) →
      d < fuel →
      poll_cq_wait env i fuel e wc calls =
        some ((env.poll_cq i (e + d)).1,
              (if 0 < (env.poll_cq i (e + d)).1 then (env.poll_cq i (e + d)).2 else wc),
              calls ++ spin_calls d (env.poll_cq i (e + d)).1) := by
  intro d
  induction d with
  | zero =>
    intro fuel e wc calls _ hlast hfuel
    obtain ⟨f, rfl⟩ : ∃ f, fuel = f + 1 := ⟨fuel - 1, by omega⟩
    have hcond : ¬ ((env.poll_cq i e).1 = 0 ∧ env.running_spin i e = true) := by
      rintro ⟨h0, h1⟩
      rcases hlast with h | h
      · exact h (by simpa using h0)
      · simp at h
        rw [h] at h1
        exact Bool.noConfusion h1
    simp only [poll_cq_wait, Nat.add_zero, spin_calls, List.replicate_zero, List.nil_append]
    rw [if_neg hcond]
  | succ d ih =>
    intro fuel e wc calls hpre hlast hfuel
    obtain ⟨f, rfl⟩ : ∃ f, fuel = f + 1 := ⟨fuel - 1, by omega⟩
    have h0 := hpre 0 (Nat.succ_pos d)
    simp only [Nat.add_zero] at h0
    have hstep : ∀ k, k < d →
        (env.poll_cq i (e + 1 + k)).1 = 0 ∧ env.running_spin i (e + 1 + k) = true := by
      intro k hk
      have := hpre (k + 1) (by omega)
      have hidx : e + 1 + k = e + (k + 1) := by omega
      rw [hidx]
      exact this
    have hidx : e + 1 + d = e + (d + 1) := by omega
    have hlast2 : (env.poll_cq i (e + 1 + d)).1 ≠ 0 ∨ env.running_spin i (e + 1 + d) = false := by
      rw [hidx]
      exact hlast
    have hrec := ih f (e + 1) wc (calls ++ [Call.ibv_poll_cq 0]) hstep hlast2 (by omega)
    rw [hidx] at hrec
    simp only [poll_cq_wait]
    rw [if_pos h0, h0.1]
    simp only [lt_self_iff_false, if_false]
    rw [hrec]
    simp [spin_calls, List.replicate_succ]

/-- The poll loop of iteration `i`, entered after the post, when a completion with
status `st` arrives after `d` empty polls and the flag stays set meanwhile. -/
theorem poll_cq_wait_completes (env : TransferEnv) (i d st fuel wc : Nat) (calls : List Call)
    (hc : CompletesAfter env i d st) (hrun : ∀ e, e < d → env.running_spin i e = true)
    (hfuel : d < fuel) :
    poll_cq_wait env i fuel 0 wc calls =
      some ((env.poll_cq i d).1, st, calls ++ spin_calls d (env.poll_cq i d).1) := by
  obtain ⟨hempty, hpos, hst⟩ := hc
  have h := poll_cq_wait_leaves env i d fuel 0 wc calls
    (by intro k hk; rw [Nat.zero_add]; exact ⟨hempty k hk, hrun k hk⟩)
    (by rw [Nat.zero_add]; exact Or.inl (ne_of_gt hpos))
    hfuel
  rw [Nat.zero_add] at h
  rw [h, if_pos hpos, hst]

/-- One pass of the loop in which the post succeeds and a completion with
success status arrives after `d` empty polls: the counter and the byte counter
advance and the loop goes on. -/
theorem loop_iteration_success (iterations : Nat) (env : TransferEnv) (fuel d : Nat)
    (s : LoopState) (hi : s.i < iterations) (htop : env.running_top s.i = true)
    (hpost : env.post_send s.i = 0) (hc : CompletesAfter env s.i d IBV_WC_SUCCESS)
    (hrun : ∀ e, e < d → env.running_spin s.i e = true) (hfuel : d < fuel) :
    loop_iteration iterations env fuel s =
      some (.again
        { i := s.i + 1
          ctx := { s.ctx with
            bytes_transferred := (s.ctx.bytes_transferred + BUFFER_SIZE) % UINT64_MOD }
          wc_status := IBV_WC_SUCCESS
          calls := s.calls ++ [Call.ibv_post_send 0] ++ spin_calls d (env.poll_cq s.i d).1 }) := by
  have hw := poll_cq_wait_completes env s.i d IBV_WC_SUCCESS fuel s.wc_status
    (s.calls ++ [Call.ibv_post_send 0]) hc hrun hfuel
  have hpos : ¬ (env.poll_cq s.i d).1 < 0 := not_lt.mpr (le_of_lt hc.2.1)
  unfold loop_iteration
  rw [if_pos ⟨hi, htop⟩]
  simp only [hpost, ne_eq, not_true_eq_false, if_false, hw, hpos]

/-- One pass of the loop in which the post succeeds and a completion with a
status other than success arrives after `d` empty polls: the loop is left with
the counter and the byte counter unchanged. -/
theorem loop_iteration_failure (iterations : Nat) (env : TransferEnv) (fuel d st : Nat)
    (s : LoopState) (hi : s.i < iterations) (htop : env.running_top s.i = true)
    (hpost : env.post_send s.i = 0) (hc : CompletesAfter env s.i d st)
    (hst : st ≠ IBV_WC_SUCCESS)
    (hrun : ∀ e, e < d → env.running_spin s.i e = true) (hfuel : d < fuel) :
    loop_iteration iterations env fuel s =
      some (.exit
        { s with
          wc_status := st
          calls := s.calls ++ [Call.ibv_post_send 0] ++ spin_calls d (env.poll_cq s.i d).1 }) := by
  have hw := poll_cq_wait_completes env s.i d st fuel s.wc_status
    (s.calls ++ [Call.ibv_post_send 0]) hc hrun hfuel
  have hpos : ¬ (env.poll_cq s.i d).1 < 0 := not_lt.mpr (le_of_lt hc.2.1)
  unfold loop_iteration
  rw [if_pos ⟨hi, htop⟩]
  simp only [hpost, ne_eq, not_true_eq_false, if_false, hw, hpos, hst, not_false_eq_true,
    if_true]

/-- The number of posts among the calls of a poll loop is zero. -/
theorem countP_isPost_spin_calls (d : Nat) (ret : Int) :
    (spin_calls d ret).countP Call.isPost = 0 := by
  simp [spin_calls, List.countP_eq_zero, Call.isPost, List.mem_replicate]

/-- The last call of a poll loop is its last poll. -/
theorem getLast_spin_calls (pre : List Call) (d : Nat) (ret : Int) :
    (pre ++ spin_calls d ret).getLast? = some (Call.ibv_poll_cq ret) := by
  simp [spin_calls, ← List.append_assoc]

/-- After `n` passes that did not leave the loop, the rest of the loop runs from
the state reached. -/
theorem transfer_loop_after_again (iterations : Nat) (env : TransferEnv) (fuel : Nat) :
    ∀ (n : Nat) (s t : LoopState),
      after_iterations iterations env fuel n s = some (.again t) →
      ∀ g, transfer_loop iterations env fuel (n + g) s = transfer_loop iterations env fuel g t := by
  intro n
  induction n with
  | zero =>
    intro s t h g
    simp only [after_iterations, Option.some.injEq, LoopStep.again.injEq] at h
    rw [Nat.zero_add, h]
  | succ n ih =>
    intro s t h g
    have hg : n + 1 + g = (n + g) + 1 := by omega
    rw [hg]
    simp only [after_iterations] at h
    simp only [transfer_loop]
    cases hl : loop_iteration iterations env fuel s with
    | none => rw [hl] at h; exact absurd h (by simp)
    | some step =>
      cases step with
      | exit u => rw [hl] at h; exact absurd h (by simp)
      | again u =>
        rw [hl] at h
        exact ih u t h g

/-- A pass that leaves the loop ends the loop. -/
theorem transfer_loop_exit (iterations : Nat) (env : TransferEnv) (fuel g : Nat)
    (s t : LoopState) (h : loop_iteration iterations env fuel s = some (.exit t)) :
    transfer_loop iterations env fuel (g + 1) s = some t := by
  simp only [transfer_loop, h]

/-- With the counter at the budget the loop condition is false. -/
theorem loop_iteration_budget (iterations : Nat) (env : TransferEnv) (fuel : Nat)
    (s : LoopState) (h : iterations ≤ s.i) :
    loop_iteration iterations env fuel s = some (.exit s) := by
  unfold loop_iteration
  rw [if_neg]
  rintro ⟨h1, _⟩
  omega

/-- Passes `s.i, ..., s.i + n - 1` of the loop when, below `K`, the flag is read
as set, every post succeeds and every poll loop receives a completion with
success status: the loop goes on, the counter has advanced by `n`, the byte
counter by `n * BUFFER_SIZE`, and `n` posts were made. -/
theorem after_iterations_success (iterations K : Nat) (env : TransferEnv)
    (hK : K ≤ iterations)
    (htop : ∀ i, i < K → env.running_top i = true)
    (hspin : ∀ i e, i < K → env.running_spin i e = true)
    (hpost : ∀ i, i < K → env.post_send i = 0)
    (hpoll : ∀ i, i < K → ∃ d, CompletesAfter env i d IBV_WC_SUCCESS) :
    ∀ (n : Nat) (s : LoopState), s.i + n ≤ K →
      s.ctx.bytes_transferred + n * BUFFER_SIZE < UINT64_MOD →
      ∃ t : LoopState,
        t.i = s.i + n ∧
        t.ctx.bytes_transferred = s.ctx.bytes_transferred + n * BUFFER_SIZE ∧
        t.calls.countP Call.isPost = s.calls.countP Call.isPost + n ∧
        ∃ fuel0, ∀ fuel, fuel0 ≤ fuel →
          after_iterations iterations env fuel n s = some (.again t) := by
  intro n
  induction n with
  | zero =>
    intro s _ _
    exact ⟨s, by simp, by simp, by simp, 0, fun fuel _ => by simp [after_iterations]⟩
  | succ n ih =>
    intro s hi hb
    have hlt : s.i < K := by omega
    obtain ⟨d, hd⟩ := hpoll s.i hlt
    have hmul : (n + 1) * BUFFER_SIZE = n * BUFFER_SIZE + BUFFER_SIZE := Nat.succ_mul n BUFFER_SIZE
    have hmod : (s.ctx.bytes_transferred + BUFFER_SIZE) % UINT64_MOD
        = s.ctx.bytes_transferred + BUFFER_SIZE := Nat.mod_eq_of_lt (by omega)
    obtain ⟨s1, hs1⟩ : ∃ s1 : LoopState, s1 =
      { i := s.i + 1
        ctx := { s.ctx with
          bytes_transferred := (s.ctx.bytes_transferred + BUFFER_SIZE) % UINT64_MOD }
        wc_status := IBV_WC_SUCCESS
        calls := s.calls ++ [Call.ibv_post_send 0] ++ spin_calls d (env.poll_cq s.i d).1 } :=
      ⟨_, rfl⟩
    have hs1i : s1.i = s.i + 1 := by rw [hs1]
    have hs1b : s1.ctx.bytes_transferred = s.ctx.bytes_transferred + BUFFER_SIZE := by
      rw [hs1]; exact hmod
    have hs1c : s1.calls = s.calls ++ [Call.ibv_post_send 0] ++ spin_calls d (env.poll_cq s.i d).1 := by
      rw [hs1]
    obtain ⟨t, hti, htb, htp, fuel1, hrun⟩ := ih s1 (by omega) (by omega)
    refine ⟨t, by omega, by omega, ?_, max (d + 1) fuel1, ?_⟩
    · rw [htp, hs1c]
      simp only [List.countP_append, countP_isPost_spin_calls, List.countP_cons,
        List.countP_nil, Call.isPost]
      simp only [if_true]
      omega
    · intro fuel hfuel
      have h1 : d < fuel := by
        have := le_max_left (d + 1) fuel1
        omega
      have h2 : fuel1 ≤ fuel := le_trans (le_max_right (d + 1) fuel1) hfuel
      simp only [after_iterations]
      rw [loop_iteration_success iterations env fuel d s (by omega) (htop s.i hlt)
        (hpost s.i hlt) hd (fun e _ => hspin s.i e hlt) h1, ← hs1]
      exact hrun fuel h2

/-- What `perform_rdma_operations` reports when its loop is left in state `t`. -/
theorem perform_of_transfer_loop (iterations : Nat) (env : TransferEnv) (fuel : Nat)
    (ctx : rdma_context) (t : LoopState)
    (h : transfer_loop iterations env fuel fuel (loop_entry env ctx) = some t) :
    ∃ r, perform_rdma_operations iterations env fuel ctx = some r ∧
      r.report.operations = t.i ∧ r.report.bytes = t.ctx.bytes_transferred ∧
      r.ctx.bytes_transferred = t.ctx.bytes_transferred ∧ r.calls = t.calls := by
  unfold perform_rdma_operations
  rw [h]
  exact ⟨_, rfl, rfl, rfl, rfl, rfl⟩

/-- An `int` number of buffers never wraps the 64-bit byte counter. -/
theorem bytes_no_wrap (n : Nat) (h : n ≤ 1000) : 0 + n * BUFFER_SIZE < UINT64_MOD := by
  have h1 : BUFFER_SIZE = 1048576 := by decide
  have h2 : UINT64_MOD = 18446744073709551616 := by decide
  rw [h1, h2]
  omega

/-- A whole run of the loop with budget `iterations ≤ 1000` from a zero byte
counter, when the flag stays set, every post succeeds and every poll loop
receives a completion with success status. -/
theorem perform_all_success (iterations : Nat) (env : TransferEnv) (ctx : rdma_context)
    (hI : iterations ≤ 1000) (hzero : ctx.bytes_transferred = 0)
    (htop : ∀ i, env.running_top i = true)
    (hspin : ∀ i e, env.running_spin i e = true)
    (hpost : ∀ i, env.post_send i = 0)
    (hpoll : ∀ i, ∃ d, CompletesAfter env i d IBV_WC_SUCCESS) :
    ∃ fuel0, ∀ fuel, fuel0 ≤ fuel →
      ∃ r, perform_rdma_operations iterations env fuel ctx = some r ∧
        r.report.operations = iterations ∧ r.report.bytes = iterations * BUFFER_SIZE ∧
        r.ctx.bytes_transferred = iterations * BUFFER_SIZE ∧
        r.calls.countP Call.isPost = iterations := by
  have hb := bytes_no_wrap iterations hI
  have he0 : (loop_entry env ctx).i = 0 := rfl
  have heb : (loop_entry env ctx).ctx.bytes_transferred = 0 := hzero
  have hec : (loop_entry env ctx).calls = [] := rfl
  obtain ⟨t, hti, htb, htp, fuel1, hrun⟩ :=
    after_iterations_success iterations iterations env (le_refl _)
      (fun i _ => htop i) (fun i e _ => hspin i e) (fun i _ => hpost i) (fun i _ => hpoll i)
      iterations (loop_entry env ctx) (by omega) (by omega)
  rw [he0] at hti
  rw [heb] at htb
  rw [hec] at htp
  refine ⟨max fuel1 (iterations + 1), ?_⟩
  intro fuel hfuel
  have h1 : fuel1 ≤ fuel := le_trans (le_max_left _ _) hfuel
  have h2 : iterations + 1 ≤ fuel := le_trans (le_max_right _ _) hfuel
  obtain ⟨g, hg⟩ : ∃ g, fuel = iterations + (g + 1) := ⟨fuel - iterations - 1, by omega⟩
  have hloop : transfer_loop iterations env fuel fuel (loop_entry env ctx) = some t := by
    have h3 := transfer_loop_after_again iterations env fuel iterations (loop_entry env ctx) t
      (hrun fuel h1) (g + 1)
    rw [← hg] at h3
    rw [h3]
    exact transfer_loop_exit iterations env fuel g t t
      (loop_iteration_budget iterations env fuel t (by omega))
  obtain ⟨r, hr, hops, hbytes, hctx, hcalls⟩ :=
    perform_of_transfer_loop iterations env fuel ctx t hloop
  refine ⟨r, hr, ?_, ?_, ?_, ?_⟩
  · rw [hops]; omega
  · rw [hbytes]; omega
  · rw [hctx]; omega
  · rw [hcalls, htp]; simp

/-! ## The claims -/

/-- C1. In `perform_rdma_operations` (budget 100 in the client, 1000 in the
server), entered with `bytes_transferred = 0`: if the `running` flag stays set,
every post succeeds and every poll loop receives a completion with success
status, then for every `N` up to the budget the loop is, after `N` passes, still
running with `i = N` and `bytes_transferred = N * BUFFER_SIZE` exactly (the
64-bit counter has not wrapped); the whole run reports `iterations` operations
and `iterations * BUFFER_SIZE` bytes, and the client's run of 100 iterations
ends with `bytes_transferred = 104857600`. -/
theorem C1_transferred_bytes_exact (iterations N : Nat) (env : TransferEnv) (ctx : rdma_context)
    (hI : iterations = Client.iterations ∨ iterations = Server.iterations)
    (hN : N ≤ iterations) (hzero : ctx.bytes_transferred = 0)
    (htop : ∀ i, env.running_top i = true)
    (hspin : ∀ i e, env.running_spin i e = true)
    (hpost : ∀ i, env.post_send i = 0)
    (hpoll : ∀ i, ∃ d, CompletesAfter env i d IBV_WC_SUCCESS) :
    ∃ fuel0, ∀ fuel, fuel0 ≤ fuel →
      (∃ t, after_iterations iterations env fuel N (loop_entry env ctx) = some (.again t) ∧
        t.i = N ∧ t.ctx.bytes_transferred = N * BUFFER_SIZE) ∧
      (∃ r, perform_rdma_operations iterations env fuel ctx = some r ∧
        r.report.operations = iterations ∧ r.report.bytes = iterations * BUFFER_SIZE ∧
        r.ctx.bytes_transferred = iterations * BUFFER_SIZE) ∧
      (∃ r, Client.perform_rdma_operations env fuel ctx = some r ∧
        r.report.operations = 100 ∧ r.report.bytes = 104857600 ∧
        r.ctx.bytes_transferred = 104857600) := by
  have hI1000 : iterations ≤ 1000 := by
    rcases hI with h | h <;> rw [h] <;> decide
  have hb := bytes_no_wrap N (le_trans hN hI1000)
  have he0 : (loop_entry env ctx).i = 0 := rfl
  have heb : (loop_entry env ctx).ctx.bytes_transferred = 0 := hzero
  obtain ⟨t, hti, htb, _, fuelA, hA⟩ :=
    after_iterations_success iterations iterations env (le_refl _)
      (fun i _ => htop i) (fun i e _ => hspin i e) (fun i _ => hpost i) (fun i _ => hpoll i)
      N (loop_entry env ctx) (by omega) (by omega)
  rw [he0] at hti
  rw [heb] at htb
  obtain ⟨fuelB, hB⟩ := perform_all_success iterations env ctx hI1000 hzero htop hspin hpost hpoll
  obtain ⟨fuelC, hC⟩ := perform_all_success Client.iterations env ctx (by decide) hzero htop hspin
    hpost hpoll
  refine ⟨max fuelA (max fuelB fuelC), ?_⟩
  intro fuel hfuel
  have hfA : fuelA ≤ fuel := le_trans (le_max_left _ _) hfuel
  have hfBC : max fuelB fuelC ≤ fuel := le_trans (le_max_right _ _) hfuel
  have hfB : fuelB ≤ fuel := le_trans (le_max_left _ _) hfBC
  have hfC : fuelC ≤ fuel := le_trans (le_max_right _ _) hfBC
  refine ⟨⟨t, hA fuel hfA, by omega, by omega⟩, ?_, ?_⟩
  · obtain ⟨r, hr, h1, h2, h3, _⟩ := hB fuel hfB
    exact ⟨r, hr, h1, h2, h3⟩
  · obtain ⟨r, hr, h1, h2, h3, _⟩ := hC fuel hfC
    have hc : Client.iterations * BUFFER_SIZE = 104857600 := by decide
    have hi : Client.iterations = 100 := rfl
    rw [hc] at h2 h3
    rw [hi] at h1
    exact ⟨r, hr, h1, h2, h3⟩

/-- C1, at a concrete input: the client's budget, all 100 passes, the world in
which every poll returns a successful completion, the zeroed endpoint. -/
theorem C1_transferred_bytes_exact_witness :
    ∃ fuel0, ∀ fuel, fuel0 ≤ fuel →
      (∃ t, after_iterations 100 env_all_success fuel 100
          (loop_entry env_all_success rdma_context.zero) = some (.again t) ∧
        t.i = 100 ∧ t.ctx.bytes_transferred = 100 * BUFFER_SIZE) ∧
      (∃ r, perform_rdma_operations 100 env_all_success fuel rdma_context.zero = some r ∧
        r.report.operations = 100 ∧ r.report.bytes = 100 * BUFFER_SIZE ∧
        r.ctx.bytes_transferred = 100 * BUFFER_SIZE) ∧
      (∃ r, Client.perform_rdma_operations env_all_success fuel rdma_context.zero = some r ∧
        r.report.operations = 100 ∧ r.report.bytes = 104857600 ∧
        r.ctx.bytes_transferred = 104857600) :=
  C1_transferred_bytes_exact 100 100 env_all_success rdma_context.zero (Or.inl rfl)
    (le_refl 100) rfl (fun _ => rfl) (fun _ _ => rfl) (fun _ => rfl)
    (fun _ => ⟨0, fun _ h => absurd h (Nat.not_lt_zero _), Int.one_pos, rfl⟩)

/-- A run of the loop in which passes `0, ..., k - 1` complete with success status
and pass `k` polls a completion with another status: the loop is left in pass
`k`, after `k + 1` posts, the last call being the poll that returned the failed
completion. -/
theorem perform_failure_at (iterations k d st : Nat) (env : TransferEnv) (ctx : rdma_context)
    (hI : iterations ≤ 1000) (hk : k < iterations) (hzero : ctx.bytes_transferred = 0)
    (htop : ∀ i, i ≤ k → env.running_top i = true)
    (hspin : ∀ i e, i ≤ k → env.running_spin i e = true)
    (hpost : ∀ i, i ≤ k → env.post_send i = 0)
    (hpoll : ∀ i, i < k → ∃ d, CompletesAfter env i d IBV_WC_SUCCESS)
    (hfail : CompletesAfter env k d st) (hst : st ≠ IBV_WC_SUCCESS) :
    ∃ fuel0, ∀ fuel, fuel0 ≤ fuel →
      ∃ r, perform_rdma_operations iterations env fuel ctx = some r ∧
        r.report.operations = k ∧ r.report.bytes = k * BUFFER_SIZE ∧
        r.ctx.bytes_transferred = k * BUFFER_SIZE ∧
        r.calls.countP Call.isPost = k + 1 ∧
        r.calls.getLast? = some (Call.ibv_poll_cq (env.poll_cq k d).1) := by
  have hb := bytes_no_wrap k (by omega)
  have he0 : (loop_entry env ctx).i = 0 := rfl
  have heb : (loop_entry env ctx).ctx.bytes_transferred = 0 := hzero
  have hec : (loop_entry env ctx).calls = [] := rfl
  obtain ⟨t, hti, htb, htp, fuel1, hrun⟩ :=
    after_iterations_success iterations k env (le_of_lt hk)
      (fun i h => htop i (le_of_lt h)) (fun i e h => hspin i e (le_of_lt h))
      (fun i h => hpost i (le_of_lt h)) hpoll
      k (loop_entry env ctx) (by omega) (by omega)
  rw [he0, Nat.zero_add] at hti
  rw [heb] at htb
  rw [hec] at htp
  refine ⟨max fuel1 (max (d + 1) (k + 1)), ?_⟩
  intro fuel hfuel
  have h1 : fuel1 ≤ fuel := le_trans (le_max_left _ _) hfuel
  have h23 : max (d + 1) (k + 1) ≤ fuel := le_trans (le_max_right _ _) hfuel
  have h2 : d + 1 ≤ fuel := le_trans (le_max_left _ _) h23
  have h3 : k + 1 ≤ fuel := le_trans (le_max_right _ _) h23
  obtain ⟨g, hg⟩ : ∃ g, fuel = k + (g + 1) := ⟨fuel - k - 1, by omega⟩
  have hfail2 : CompletesAfter env t.i d st := by rw [hti]; exact hfail
  have hstep := loop_iteration_failure iterations env fuel d st t (by omega)
    (by rw [hti]; exact htop k (le_refl k)) (by rw [hti]; exact hpost k (le_refl k)) hfail2 hst
    (fun e _ => by rw [hti]; exact hspin k e (le_refl k)) (by omega)
  have hloop := transfer_loop_after_again iterations env fuel k (loop_entry env ctx) t
    (hrun fuel h1) (g + 1)
  rw [← hg, transfer_loop_exit iterations env fuel g t _ hstep] at hloop
  obtain ⟨r, hr, hops, hbytes, hctx, hcalls⟩ :=
    perform_of_transfer_loop iterations env fuel ctx _ hloop
  refine ⟨r, hr, ?_, ?_, ?_, ?_, ?_⟩
  · rw [hops]; exact hti
  · rw [hbytes]; show t.ctx.bytes_transferred = _; omega
  · rw [hctx]; show t.ctx.bytes_transferred = _; omega
  · rw [hcalls]
    show (t.calls ++ [Call.ibv_post_send 0] ++ spin_calls d (env.poll_cq t.i d).1).countP
      Call.isPost = k + 1
    simp only [List.countP_append, countP_isPost_spin_calls, List.countP_cons,
      List.countP_nil, Call.isPost, htp]
    simp
  · rw [hcalls]
    show (t.calls ++ [Call.ibv_post_send 0] ++ spin_calls d (env.poll_cq t.i d).1).getLast? = _
    rw [getLast_spin_calls, hti]

/-- C2. In `perform_rdma_operations` (budget 100 in the client, 1000 in the
server), entered with `bytes_transferred = 0`, for every `k` below the budget:
if passes `0, ..., k - 1` each receive a completion with success status and the
completion polled in pass `k` has another status, then the function returns,
reporting `k` operations and `k * BUFFER_SIZE` bytes, having made exactly
`k + 1` posts, and its last call is the poll that returned the failed
completion (nothing is posted or polled after it). -/
theorem C2_failed_completion_stops_loop (iterations k d st : Nat) (env : TransferEnv)
    (ctx : rdma_context)
    (hI : iterations = Client.iterations ∨ iterations = Server.iterations)
    (hk : k < iterations) (hzero : ctx.bytes_transferred = 0)
    (htop : ∀ i, i ≤ k → env.running_top i = true)
    (hspin : ∀ i e, i ≤ k → env.running_spin i e = true)
    (hpost : ∀ i, i ≤ k → env.post_send i = 0)
    (hpoll : ∀ i, i < k → ∃ d, CompletesAfter env i d IBV_WC_SUCCESS)
    (hfail : CompletesAfter env k d st) (hst : st ≠ IBV_WC_SUCCESS) :
    ∃ fuel0, ∀ fuel, fuel0 ≤ fuel →
      ∃ r, perform_rdma_operations iterations env fuel ctx = some r ∧
        r.report.operations = k ∧ r.report.bytes = k * BUFFER_SIZE ∧
        r.ctx.bytes_transferred = k * BUFFER_SIZE ∧
        r.calls.countP Call.isPost = k + 1 ∧
        r.calls.getLast? = some (Call.ibv_poll_cq (env.poll_cq k d).1) := by
  have hI1000 : iterations ≤ 1000 := by
    rcases hI with h | h <;> rw [h] <;> decide
  exact perform_failure_at iterations k d st env ctx hI1000 hk hzero htop hspin hpost hpoll
    hfail hst

/-- C2, at the scenario of the specification: the client's budget, a completion
with status 10 in pass 5. -/
theorem C2_failed_completion_stops_loop_witness :
    ∃ fuel0, ∀ fuel, fuel0 ≤ fuel →
      ∃ r, perform_rdma_operations 100 env_fail_at_5 fuel rdma_context.zero = some r ∧
        r.report.operations = 5 ∧ r.report.bytes = 5 * BUFFER_SIZE ∧
        r.ctx.bytes_transferred = 5 * BUFFER_SIZE ∧
        r.calls.countP Call.isPost = 5 + 1 ∧
        r.calls.getLast? = some (Call.ibv_poll_cq (env_fail_at_5.poll_cq 5 0).1) :=
  C2_failed_completion_stops_loop 100 5 0 10 env_fail_at_5 rdma_context.zero (Or.inl rfl)
    (by decide) rfl (fun _ _ => rfl) (fun _ _ _ => rfl) (fun _ _ => rfl)
    (fun i hi => ⟨0, fun _ h => absurd h (Nat.not_lt_zero _), Int.one_pos,
      if_neg (Nat.ne_of_lt hi)⟩)
    ⟨fun _ h => absurd h (Nat.not_lt_zero _), Int.one_pos, rfl⟩ (by decide)

/-- C3, counterexample.  The flag is cleared while pass 1 polls: the server's
run makes two posts but polls only one completion; the poll loop of pass 1 is
left after one empty poll, and the function returns with the second request
still in flight. -/
theorem C3_counterexample_cancel_abandons_request :
    ∃ r, Server.perform_rdma_operations env_cancel_in_poll 4 rdma_context.zero = some r ∧
      r.calls = [Call.ibv_post_send 0, Call.ibv_poll_cq 1,
                 Call.ibv_post_send 0, Call.ibv_poll_cq 0] ∧
      r.calls.countP Call.isPost = 2 ∧ r.calls.countP Call.isCompletion = 1 :=
  ⟨_, rfl, rfl, rfl, rfl⟩

/-- C3, amended.  After a successful post the poll loop polls at least once and
is left at the first poll `d` that either returned non-zero (a completion or an
error) or returned `0` and was followed by a read of `running` as cleared; the
polls before it all returned `0`.  When it is left on a cleared flag, no poll
of the loop returned a completion. -/
theorem C3_poll_loop_left_on_completion_or_cancel (env : TransferEnv) (i d fuel wc : Nat)
    (calls : List Call)
    (hpre : ∀ e, e < d → (env.poll_cq i e).1 = 0 ∧ env.running_spin i e = true)
    (hlast : (env.poll_cq i d).1 ≠ 0 ∨ env.running_spin i d = false)
    (hfuel : d < fuel) :
    poll_cq_wait env i fuel 0 wc calls =
        some ((env.poll_cq i d).1,
              (if 0 < (env.poll_cq i d).1 then (env.poll_cq i d).2 else wc),
              calls ++ spin_calls d (env.poll_cq i d).1) ∧
      ((env.poll_cq i d).1 = 0 →
        (spin_calls d (env.poll_cq i d).1).countP Call.isCompletion = 0) := by
  constructor
  · have h := poll_cq_wait_leaves env i d fuel 0 wc calls
      (by intro k hk; rw [Nat.zero_add]; exact hpre k hk)
      (by rw [Nat.zero_add]; exact hlast) hfuel
    rw [Nat.zero_add] at h
    exact h
  · intro h0
    rw [h0]
    simp [spin_calls, List.countP_eq_zero, Call.isCompletion, List.mem_replicate]

/-- C3 amended, at pass 1 of the world in which the flag is cleared while that
pass polls. -/
theorem C3_poll_loop_left_on_completion_or_cancel_witness :
    poll_cq_wait env_cancel_in_poll 1 1 0 0 [] =
        some ((env_cancel_in_poll.poll_cq 1 0).1,
              (if 0 < (env_cancel_in_poll.poll_cq 1 0).1 then (env_cancel_in_poll.poll_cq 1 0).2
               else 0),
              [] ++ spin_calls 0 (env_cancel_in_poll.poll_cq 1 0).1) ∧
      ((env_cancel_in_poll.poll_cq 1 0).1 = 0 →
        (spin_calls 0 (env_cancel_in_poll.poll_cq 1 0).1).countP Call.isCompletion = 0) :=
  C3_poll_loop_left_on_completion_or_cancel env_cancel_in_poll 1 0 1 0 []
    (fun _ h => absurd h (Nat.not_lt_zero _)) (Or.inr rfl) (by decide)

/-- The state after a pass that went on has the start time of the state before,
whatever the new byte count `b`. -/
theorem again_state_start_time (s : LoopState) (b wc : Nat) (calls : List Call) :
    (LoopStep.again
      { i := s.i + 1
        ctx := { s.ctx with bytes_transferred := b }
        wc_status := wc
        calls := calls }).state.ctx.start_time = s.ctx.start_time := rfl

/-- One pass of the loop writes no field of the endpoint but `bytes_transferred`:
the stored start time is kept. -/
theorem loop_iteration_start_time (iterations : Nat) (env : TransferEnv) (fuel : Nat)
    (s : LoopState) (step : LoopStep) (h : loop_iteration iterations env fuel s = some step) :
    step.state.ctx.start_time = s.ctx.start_time := by
  unfold loop_iteration at h
  by_cases hc : s.i < iterations ∧ env.running_top s.i = true
  · rw [if_pos hc] at h
    by_cases hp : env.post_send s.i ≠ 0
    · rw [if_pos hp] at h
      cases h; rfl
    · rw [if_neg hp] at h
      cases hw : poll_cq_wait env s.i fuel 0 s.wc_status
          (s.calls ++ [Call.ibv_post_send (env.post_send s.i)]) with
      | none => rw [hw] at h; exact absurd h (by simp)
      | some res =>
        obtain ⟨ret, wc, calls⟩ := res
        rw [hw] at h
        dsimp only at h
        by_cases h1 : ret < 0
        · rw [if_pos h1] at h
          cases h; rfl
        · rw [if_neg h1] at h
          by_cases h2 : wc ≠ IBV_WC_SUCCESS
          · rw [if_pos h2] at h
            cases h; rfl
          · rw [if_neg h2] at h
            rw [← Option.some.inj h]
            exact again_state_start_time s _ wc calls
  · rw [if_neg hc] at h
    cases h; rfl

/-- The loop keeps the stored start time. -/
theorem transfer_loop_start_time (iterations : Nat) (env : TransferEnv) (fuel : Nat) :
    ∀ (gas : Nat) (s t : LoopState), transfer_loop iterations env fuel gas s = some t →
      t.ctx.start_time = s.ctx.start_time := by
  intro gas
  induction gas with
  | zero => intro s t h; simp [transfer_loop] at h
  | succ gas ih =>
    intro s t h
    simp only [transfer_loop] at h
    cases hl : loop_iteration iterations env fuel s with
    | none => rw [hl] at h; exact absurd h (by simp)
    | some step =>
      have hst := loop_iteration_start_time iterations env fuel s step hl
      rw [hl] at h
      cases step with
      | exit u =>
        simp only [Option.some.injEq] at h
        rw [← h]
        exact hst
      | again u =>
        have hu := ih u t h
        rw [hu]
        exact hst

/-- C4, counterexample.  In a zero-duration run (both clock readings equal) the
elapsed time is `0`, the division by `elapsed * 1e6` is evaluated with a zero
divisor, and the reported Mbps and MB/s are non-finite, not a sentinel. -/
theorem C4_counterexample_zero_duration :
    ∃ r, Client.perform_rdma_operations env_zero_duration 1 rdma_context.zero = some r ∧
      r.report.elapsed = 0 ∧ r.report.mbps = none ∧ r.report.mbs = none := by
  refine ⟨_, rfl, ?_, ?_, ?_⟩ <;>
    simp [make_report, elapsed_seconds, throughput_mbps, throughput_mbs, fdiv,
      env_zero_duration, loop_entry, rdma_context.zero]

/-- C4, amended.  Whenever `perform_rdma_operations` returns, the elapsed time it
reports is computed from the two clock readings, and the reported Mbps and MB/s
are the quotients by `elapsed * 1e6`, evaluated whatever the sign of `elapsed`;
when the two readings are equal both quotients are non-finite. -/
theorem C4_throughput_division_unguarded (iterations : Nat) (env : TransferEnv) (fuel : Nat)
    (ctx : rdma_context) (r : TransferResult)
    (h : perform_rdma_operations iterations env fuel ctx = some r) :
    r.report.elapsed = elapsed_seconds env.start_time env.end_time ∧
      r.report.mbps = fdiv ((r.report.bytes : ℚ) * 8) (r.report.elapsed * 1000000) ∧
      r.report.mbs = fdiv (r.report.bytes : ℚ) (r.report.elapsed * 1000000) ∧
      (env.end_time = env.start_time → r.report.mbps = none ∧ r.report.mbs = none) := by
  unfold perform_rdma_operations at h
  cases hl : transfer_loop iterations env fuel fuel (loop_entry env ctx) with
  | none => rw [hl] at h; exact absurd h (by simp)
  | some s =>
    rw [hl] at h
    simp only [Option.some.injEq] at h
    have hst : s.ctx.start_time = env.start_time :=
      transfer_loop_start_time iterations env fuel fuel (loop_entry env ctx) s hl
    have he : r.report.elapsed = elapsed_seconds env.start_time env.end_time := by
      rw [← h, ← hst]; rfl
    have hm : r.report.mbps = fdiv ((r.report.bytes : ℚ) * 8) (r.report.elapsed * 1000000) := by
      rw [← h]; rfl
    have hb : r.report.mbs = fdiv (r.report.bytes : ℚ) (r.report.elapsed * 1000000) := by
      rw [← h]; rfl
    refine ⟨he, hm, hb, ?_⟩
    intro heq
    have h0 : r.report.elapsed = 0 := by
      rw [he, heq]
      simp [elapsed_seconds]
    rw [hm, hb, h0]
    simp [fdiv]

/-- C4 amended, at the zero-duration run of the client. -/
theorem C4_throughput_division_unguarded_witness :
    ∃ r, Client.perform_rdma_operations env_zero_duration 1 rdma_context.zero = some r ∧
      (r.report.elapsed = elapsed_seconds env_zero_duration.start_time env_zero_duration.end_time ∧
        r.report.mbps = fdiv ((r.report.bytes : ℚ) * 8) (r.report.elapsed * 1000000) ∧
        r.report.mbs = fdiv (r.report.bytes : ℚ) (r.report.elapsed * 1000000) ∧
        (env_zero_duration.end_time = env_zero_duration.start_time →
          r.report.mbps = none ∧ r.report.mbs = none)) :=
  ⟨_, rfl, C4_throughput_division_unguarded Client.iterations env_zero_duration 1
    rdma_context.zero _ rfl⟩

/-- The two ways `setup_rdma_resources` ends: with `-1` after an initial segment
of at most eight of its calls, when some step fails; with `0` after all nine
calls, the six handles stored, when every step succeeds. -/
theorem setup_rdma_resources_cases (env : SetupEnv) (ctx : rdma_context) :
    ((setup_rdma_resources env ctx).ret = -1 ∧ ¬ env.ok ∧
        ∃ n, n ≤ 8 ∧ (setup_rdma_resources env ctx).calls = setup_calls.take n) ∨
      ((setup_rdma_resources env ctx).ret = 0 ∧ env.ok ∧
        (setup_rdma_resources env ctx).calls = setup_calls ∧
        (setup_rdma_resources env ctx).ctx =
          { ctx with context := env.open_device, pd := env.alloc_pd, cq := env.create_cq,
                     buffer := env.malloc, mr := env.reg_mr, qp := env.create_qp }) := by
  by_cases h1 : env.dev_list = 0
  · have e1 : (setup_rdma_resources env ctx).ret = -1 := by
      simp [setup_rdma_resources, h1]
    have e2 : (setup_rdma_resources env ctx).calls = setup_calls.take 1 := by
      simp [setup_rdma_resources, setup_calls, h1]
    exact Or.inl ⟨e1, fun h => h.1 h1, 1, by decide, e2⟩
  by_cases h2 : env.num_devices = 0
  · have e1 : (setup_rdma_resources env ctx).ret = -1 := by
      simp [setup_rdma_resources, h1, h2]
    have e2 : (setup_rdma_resources env ctx).calls = setup_calls.take 1 := by
      simp [setup_rdma_resources, setup_calls, h1, h2]
    exact Or.inl ⟨e1, fun h => h.2.1 h2, 1, by decide, e2⟩
  by_cases h3 : env.open_device = 0
  · have e1 : (setup_rdma_resources env ctx).ret = -1 := by
      simp [setup_rdma_resources, h1, h2, h3]
    have e2 : (setup_rdma_resources env ctx).calls = setup_calls.take 2 := by
      simp [setup_rdma_resources, setup_calls, h1, h2, h3]
    exact Or.inl ⟨e1, fun h => h.2.2.1 h3, 2, by decide, e2⟩
  by_cases h4 : env.alloc_pd = 0
  · have e1 : (setup_rdma_resources env ctx).ret = -1 := by
      simp [setup_rdma_resources, h1, h2, h3, h4]
    have e2 : (setup_rdma_resources env ctx).calls = setup_calls.take 3 := by
      simp [setup_rdma_resources, setup_calls, h1, h2, h3, h4]
    exact Or.inl ⟨e1, fun h => h.2.2.2.1 h4, 3, by decide, e2⟩
  by_cases h5 : env.query_port = 0
  swap
  · have e1 : (setup_rdma_resources env ctx).ret = -1 := by
      simp [setup_rdma_resources, h1, h2, h3, h4, h5]
    have e2 : (setup_rdma_resources env ctx).calls = setup_calls.take 4 := by
      simp [setup_rdma_resources, setup_calls, h1, h2, h3, h4, h5]
    exact Or.inl ⟨e1, fun h => h5 h.2.2.2.2.1, 4, by decide, e2⟩
  by_cases h6 : env.port_state = IBV_PORT_ACTIVE
  swap
  · have e1 : (setup_rdma_resources env ctx).ret = -1 := by
      simp [setup_rdma_resources, h1, h2, h3, h4, h5, h6]
    have e2 : (setup_rdma_resources env ctx).calls = setup_calls.take 4 := by
      simp [setup_rdma_resources, setup_calls, h1, h2, h3, h4, h5, h6]
    exact Or.inl ⟨e1, fun h => h6 h.2.2.2.2.2.1, 4, by decide, e2⟩
  by_cases h7 : env.create_cq = 0
  · have e1 : (setup_rdma_resources env ctx).ret = -1 := by
      simp [setup_rdma_resources, h1, h2, h3, h4, h5, h6, h7]
    have e2 : (setup_rdma_resources env ctx).calls = setup_calls.take 5 := by
      simp [setup_rdma_resources, setup_calls, h1, h2, h3, h4, h5, h6, h7]
    exact Or.inl ⟨e1, fun h => h.2.2.2.2.2.2.1 h7, 5, by decide, e2⟩
  by_cases h8 : env.malloc = 0
  · have e1 : (setup_rdma_resources env ctx).ret = -1 := by
      simp [setup_rdma_resources, h1, h2, h3, h4, h5, h6, h7, h8]
    have e2 : (setup_rdma_resources env ctx).calls = setup_calls.take 6 := by
      simp [setup_rdma_resources, setup_calls, h1, h2, h3, h4, h5, h6, h7, h8]
    exact Or.inl ⟨e1, fun h => h.2.2.2.2.2.2.2.1 h8, 6, by decide, e2⟩
  by_cases h9 : env.reg_mr = 0
  · have e1 : (setup_rdma_resources env ctx).ret = -1 := by
      simp [setup_rdma_resources, h1, h2, h3, h4, h5, h6, h7, h8, h9]
    have e2 : (setup_rdma_resources env ctx).calls = setup_calls.take 7 := by
      simp [setup_rdma_resources, setup_calls, h1, h2, h3, h4, h5, h6, h7, h8, h9]
    exact Or.inl ⟨e1, fun h => h.2.2.2.2.2.2.2.2.1 h9, 7, by decide, e2⟩
  by_cases h10 : env.create_qp = 0
  · have e1 : (setup_rdma_resources env ctx).ret = -1 := by
      simp [setup_rdma_resources, h1, h2, h3, h4, h5, h6, h7, h8, h9, h10]
    have e2 : (setup_rdma_resources env ctx).calls = setup_calls.take 8 := by
      simp [setup_rdma_resources, setup_calls, h1, h2, h3, h4, h5, h6, h7, h8, h9, h10]
    exact Or.inl ⟨e1, fun h => h.2.2.2.2.2.2.2.2.2 h10, 8, by decide, e2⟩
  · have e1 : (setup_rdma_resources env ctx).ret = 0 := by
      simp [setup_rdma_resources, h1, h2, h3, h4, h5, h6, h7, h8, h9, h10]
    have e2 : (setup_rdma_resources env ctx).calls = setup_calls := by
      simp [setup_rdma_resources, setup_calls, h1, h2, h3, h4, h5, h6, h7, h8, h9, h10]
    have e3 : (setup_rdma_resources env ctx).ctx =
        { ctx with context := env.open_device, pd := env.alloc_pd, cq := env.create_cq,
                   buffer := env.malloc, mr := env.reg_mr, qp := env.create_qp } := by
      simp [setup_rdma_resources, h1, h2, h3, h4, h5, h6, h7, h8, h9, h10]
    exact Or.inr ⟨e1, ⟨h1, h2, h3, h4, h5, h6, h7, h8, h9, h10⟩, e2, e3⟩

/-- The two ways `setup_rdma_connection` ends: with `-1`, `connected` untouched,
and no call after the one of the first failing step; or, when every step
succeeds, with `0`, `connected = 1`, and all calls of the handshake made. -/
theorem setup_rdma_connection_cases (env : ConnEnv) (ctx : rdma_context) :
    ((setup_rdma_connection env ctx).ret = -1 ∧ ¬ env.ok ∧
        (setup_rdma_connection env ctx).ctx.connected = ctx.connected ∧
        env.first_failure < 9 ∧
        (setup_rdma_connection env ctx).calls = handshake_calls.take (env.first_failure + 1)) ∨
      ((setup_rdma_connection env ctx).ret = 0 ∧ env.ok ∧
        (setup_rdma_connection env ctx).ctx.connected = 1 ∧
        (setup_rdma_connection env ctx).calls = handshake_calls) := by
  by_cases h1 : env.create_id = 0
  swap
  · have e1 : (setup_rdma_connection env ctx).ret = -1 := by
      simp [setup_rdma_connection, h1]
    have e2 : (setup_rdma_connection env ctx).ctx.connected = ctx.connected := by
      simp [setup_rdma_connection, h1]
    have e3 : env.first_failure = 0 := by
      simp [ConnEnv.first_failure, ConnEnv.step_ok, List.takeWhile, h1]
    have e4 : (setup_rdma_connection env ctx).calls = handshake_calls.take (0 + 1) := by
      simp [setup_rdma_connection, handshake_calls, h1]
    rw [e3]
    exact Or.inl ⟨e1, fun h => h1 h.1, e2, by decide, e4⟩
  by_cases h2 : env.getaddrinfo = 0
  swap
  · have e1 : (setup_rdma_connection env ctx).ret = -1 := by
      simp [setup_rdma_connection, h1, h2]
    have e2 : (setup_rdma_connection env ctx).ctx.connected = ctx.connected := by
      simp [setup_rdma_connection, h1, h2]
    have e3 : env.first_failure = 1 := by
      simp [ConnEnv.first_failure, ConnEnv.step_ok, List.takeWhile, h1, h2]
    have e4 : (setup_rdma_connection env ctx).calls = handshake_calls.take (1 + 1) := by
      simp [setup_rdma_connection, handshake_calls, h1, h2]
    rw [e3]
    exact Or.inl ⟨e1, fun h => h2 h.2.1, e2, by decide, e4⟩
  by_cases h3 : env.bind_addr = 0
  swap
  · have e1 : (setup_rdma_connection env ctx).ret = -1 := by
      simp [setup_rdma_connection, h1, h2, h3]
    have e2 : (setup_rdma_connection env ctx).ctx.connected = ctx.connected := by
      simp [setup_rdma_connection, h1, h2, h3]
    have e3 : env.first_failure = 2 := by
      simp [ConnEnv.first_failure, ConnEnv.step_ok, List.takeWhile, h1, h2, h3]
    have e4 : (setup_rdma_connection env ctx).calls = handshake_calls.take (2 + 1) := by
      simp [setup_rdma_connection, handshake_calls, h1, h2, h3]
    rw [e3]
    exact Or.inl ⟨e1, fun h => h3 h.2.2.1, e2, by decide, e4⟩
  by_cases h4 : env.listen = 0
  swap
  · have e1 : (setup_rdma_connection env ctx).ret = -1 := by
      simp [setup_rdma_connection, h1, h2, h3, h4]
    have e2 : (setup_rdma_connection env ctx).ctx.connected = ctx.connected := by
      simp [setup_rdma_connection, h1, h2, h3, h4]
    have e3 : env.first_failure = 3 := by
      simp [ConnEnv.first_failure, ConnEnv.step_ok, List.takeWhile, h1, h2, h3, h4]
    have e4 : (setup_rdma_connection env ctx).calls = handshake_calls.take (3 + 1) := by
      simp [setup_rdma_connection, handshake_calls, h1, h2, h3, h4]
    rw [e3]
    exact Or.inl ⟨e1, fun h => h4 h.2.2.2.1, e2, by decide, e4⟩
  by_cases h5 : env.get_cm_event1 = 0
  swap
  · have e1 : (setup_rdma_connection env ctx).ret = -1 := by
      simp [setup_rdma_connection, h1, h2, h3, h4, h5]
    have e2 : (setup_rdma_connection env ctx).ctx.connected = ctx.connected := by
      simp [setup_rdma_connection, h1, h2, h3, h4, h5]
    have e3 : env.first_failure = 4 := by
      simp [ConnEnv.first_failure, ConnEnv.step_ok, List.takeWhile, h1, h2, h3, h4, h5]
    have e4 : (setup_rdma_connection env ctx).calls = handshake_calls.take (4 + 1) := by
      simp [setup_rdma_connection, handshake_calls, h1, h2, h3, h4, h5]
    rw [e3]
    exact Or.inl ⟨e1, fun h => h5 h.2.2.2.2.1, e2, by decide, e4⟩
  by_cases h6 : env.event1 = RDMA_CM_EVENT_CONNECT_REQUEST
  swap
  · have e1 : (setup_rdma_connection env ctx).ret = -1 := by
      simp [setup_rdma_connection, h1, h2, h3, h4, h5, h6]
    have e2 : (setup_rdma_connection env ctx).ctx.connected = ctx.connected := by
      simp [setup_rdma_connection, h1, h2, h3, h4, h5, h6]
    have e3 : env.first_failure = 4 := by
      simp [ConnEnv.first_failure, ConnEnv.step_ok, List.takeWhile, h1, h2, h3, h4, h5, h6]
    have e4 : (setup_rdma_connection env ctx).calls = handshake_calls.take (4 + 1) := by
      simp [setup_rdma_connection, handshake_calls, h1, h2, h3, h4, h5, h6]
    rw [e3]
    exact Or.inl ⟨e1, fun h => h6 h.2.2.2.2.2.1, e2, by decide, e4⟩
  by_cases h7 : env.accept = 0
  swap
  · have e1 : (setup_rdma_connection env ctx).ret = -1 := by
      simp [setup_rdma_connection, h1, h2, h3, h4, h5, h6, h7]
    have e2 : (setup_rdma_connection env ctx).ctx.connected = ctx.connected := by
      simp [setup_rdma_connection, h1, h2, h3, h4, h5, h6, h7]
    have e3 : env.first_failure = 5 := by
      simp [ConnEnv.first_failure, ConnEnv.step_ok, List.takeWhile, h1, h2, h3, h4, h5, h6, h7]
    have e4 : (setup_rdma_connection env ctx).calls = handshake_calls.take (5 + 1) := by
      simp [setup_rdma_connection, handshake_calls, h1, h2, h3, h4, h5, h6, h7]
    rw [e3]
    exact Or.inl ⟨e1, fun h => h7 h.2.2.2.2.2.2.1, e2, by decide, e4⟩
  by_cases h8 : env.get_cm_event2 = 0
  swap
  · have e1 : (setup_rdma_connection env ctx).ret = -1 := by
      simp [setup_rdma_connection, h1, h2, h3, h4, h5, h6, h7, h8]
    have e2 : (setup_rdma_connection env ctx).ctx.connected = ctx.connected := by
      simp [setup_rdma_connection, h1, h2, h3, h4, h5, h6, h7, h8]
    have e3 : env.first_failure = 6 := by
      simp [ConnEnv.first_failure, ConnEnv.step_ok, List.takeWhile, h1, h2, h3, h4, h5, h6, h7, h8]
    have e4 : (setup_rdma_connection env ctx).calls = handshake_calls.take (6 + 1) := by
      simp [setup_rdma_connection, handshake_calls, h1, h2, h3, h4, h5, h6, h7, h8]
    rw [e3]
    exact Or.inl ⟨e1, fun h => h8 h.2.2.2.2.2.2.2.1, e2, by decide, e4⟩
  by_cases h9 : env.event2 = RDMA_CM_EVENT_ESTABLISHED
  swap
  · have e1 : (setup_rdma_connection env ctx).ret = -1 := by
      simp [setup_rdma_connection, h1, h2, h3, h4, h5, h6, h7, h8, h9]
    have e2 : (setup_rdma_connection env ctx).ctx.connected = ctx.connected := by
      simp [setup_rdma_connection, h1, h2, h3, h4, h5, h6, h7, h8, h9]
    have e3 : env.first_failure = 6 := by
      simp [ConnEnv.first_failure, ConnEnv.step_ok, List.takeWhile, h1, h2, h3, h4, h5, h6, h7, h8, h9]
    have e4 : (setup_rdma_connection env ctx).calls = handshake_calls.take (6 + 1) := by
      simp [setup_rdma_connection, handshake_calls, h1, h2, h3, h4, h5, h6, h7, h8, h9]
    rw [e3]
    exact Or.inl ⟨e1, fun h => h9 h.2.2.2.2.2.2.2.2.1, e2, by decide, e4⟩
  by_cases h10 : env.modify_rtr = 0
  swap
  · have e1 : (setup_rdma_connection env ctx).ret = -1 := by
      simp [setup_rdma_connection, h1, h2, h3, h4, h5, h6, h7, h8, h9, h10]
    have e2 : (setup_rdma_connection env ctx).ctx.connected = ctx.connected := by
      simp [setup_rdma_connection, h1, h2, h3, h4, h5, h6, h7, h8, h9, h10]
    have e3 : env.first_failure = 7 := by
      simp [ConnEnv.first_failure, ConnEnv.step_ok, List.takeWhile, h1, h2, h3, h4, h5, h6, h7, h8, h9, h10]
    have e4 : (setup_rdma_connection env ctx).calls = handshake_calls.take (7 + 1) := by
      simp [setup_rdma_connection, handshake_calls, h1, h2, h3, h4, h5, h6, h7, h8, h9, h10]
    rw [e3]
    exact Or.inl ⟨e1, fun h => h10 h.2.2.2.2.2.2.2.2.2.1, e2, by decide, e4⟩
  by_cases h11 : env.modify_rts = 0
  swap
  · have e1 : (setup_rdma_connection env ctx).ret = -1 := by
      simp [setup_rdma_connection, h1, h2, h3, h4, h5, h6, h7, h8, h9, h10, h11]
    have e2 : (setup_rdma_connection env ctx).ctx.connected = ctx.connected := by
      simp [setup_rdma_connection, h1, h2, h3, h4, h5, h6, h7, h8, h9, h10, h11]
    have e3 : env.first_failure = 8 := by
      simp [ConnEnv.first_failure, ConnEnv.step_ok, List.takeWhile, h1, h2, h3, h4, h5, h6, h7, h8, h9, h10, h11]
    have e4 : (setup_rdma_connection env ctx).calls = handshake_calls.take (8 + 1) := by
      simp [setup_rdma_connection, handshake_calls, h1, h2, h3, h4, h5, h6, h7, h8, h9, h10, h11]
    rw [e3]
    exact Or.inl ⟨e1, fun h => h11 h.2.2.2.2.2.2.2.2.2.2, e2, by decide, e4⟩
  · have e1 : (setup_rdma_connection env ctx).ret = 0 := by
      simp [setup_rdma_connection, h1, h2, h3, h4, h5, h6, h7, h8, h9, h10, h11]
    have e2 : (setup_rdma_connection env ctx).ctx.connected = 1 := by
      simp [setup_rdma_connection, h1, h2, h3, h4, h5, h6, h7, h8, h9, h10, h11]
    have e4 : (setup_rdma_connection env ctx).calls = handshake_calls := by
      simp [setup_rdma_connection, handshake_calls, h1, h2, h3, h4, h5, h6, h7, h8, h9, h10, h11]
    exact Or.inr ⟨e1, ⟨h1, h2, h3, h4, h5, h6, h7, h8, h9, h10, h11⟩, e2, e4⟩

/-- No call of `setup_rdma_resources` is an `ibv_modify_qp`. -/
theorem setup_rdma_resources_modify_targets (env : SetupEnv) (ctx : rdma_context) :
    modify_targets (setup_rdma_resources env ctx).calls = [] := by
  rcases setup_rdma_resources_cases env ctx with ⟨_, _, n, hn, hc⟩ | ⟨_, _, hc, _⟩
  · rw [hc]
    interval_cases n <;> rfl
  · rw [hc]; rfl

/-- C5, counterexample.  In the server's bring-up with every provider call
succeeding, RTS is reached (`setup_rdma_connection` returns `0`) and the target
states requested through `ibv_modify_qp` are RTR and RTS only: INIT is never
requested. -/
theorem C5_counterexample_init_never_requested :
    (setup_rdma_connection env_conn_ok
        (setup_rdma_resources env_setup_ok rdma_context.zero).ctx).ret = 0 ∧
      modify_targets ((setup_rdma_resources env_setup_ok rdma_context.zero).calls ++
        (setup_rdma_connection env_conn_ok
          (setup_rdma_resources env_setup_ok rdma_context.zero).ctx).calls) =
        [ibv_qp_state.IBV_QPS_RTR, ibv_qp_state.IBV_QPS_RTS] := by
  decide

/-- C5, amended.  In every bring-up of the server (`setup_rdma_resources`, then
`setup_rdma_connection`) that reaches RTS, the sequence of target states
requested through `ibv_modify_qp` on the freshly created queue pair is exactly
RTR, then RTS, and each of the two requests succeeded. -/
theorem C5_qp_transitions_rtr_then_rts (senv : SetupEnv) (cenv : ConnEnv) (ctx : rdma_context)
    (h : (setup_rdma_connection cenv (setup_rdma_resources senv ctx).ctx).ret = 0) :
    modify_targets ((setup_rdma_resources senv ctx).calls ++
        (setup_rdma_connection cenv (setup_rdma_resources senv ctx).ctx).calls) =
        [ibv_qp_state.IBV_QPS_RTR, ibv_qp_state.IBV_QPS_RTS] ∧
      cenv.modify_rtr = 0 ∧ cenv.modify_rts = 0 := by
  have h1 := setup_rdma_resources_modify_targets senv ctx
  rcases setup_rdma_connection_cases cenv (setup_rdma_resources senv ctx).ctx with
    ⟨hr, _⟩ | ⟨_, hok, _, hc⟩
  · rw [hr] at h
    exact absurd h (by decide)
  · refine ⟨?_, hok.2.2.2.2.2.2.2.2.2.1, hok.2.2.2.2.2.2.2.2.2.2⟩
    unfold modify_targets at h1 ⊢
    rw [List.filterMap_append, h1, hc]
    rfl

/-- C5 amended, at the bring-up in which every provider call succeeds. -/
theorem C5_qp_transitions_rtr_then_rts_witness :
    modify_targets ((setup_rdma_resources env_setup_ok rdma_context.zero).calls ++
        (setup_rdma_connection env_conn_ok
          (setup_rdma_resources env_setup_ok rdma_context.zero).ctx).calls) =
        [ibv_qp_state.IBV_QPS_RTR, ibv_qp_state.IBV_QPS_RTS] ∧
      env_conn_ok.modify_rtr = 0 ∧ env_conn_ok.modify_rts = 0 :=
  C5_qp_transitions_rtr_then_rts env_setup_ok env_conn_ok rdma_context.zero (by decide)

/-- A conditional append is an append of a conditional list. -/
theorem ite_append_singleton (p : Prop) [Decidable p] (l : List Call) (c : Call) :
    (if p then l ++ [c] else l) = l ++ (if p then [c] else []) := by
  split <;> simp

/-- Filtering a list with a known head. -/
theorem filter_handle_cons (c : Call) (l : List Call) :
    (c :: l).filter (fun x => decide (x.handle ≠ 0)) =
      (if c.handle ≠ 0 then [c] else []) ++ l.filter (fun x => decide (x.handle ≠ 0)) := by
  by_cases h : c.handle = 0 <;> simp [List.filter_cons, h]

/-- The server's `cleanup_rdma_resources` issues the release calls of the non-null
handles, in the order of `Server.release_calls`. -/
theorem server_cleanup_eq_filter (ctx : rdma_context) :
    Server.cleanup_rdma_resources ctx =
      (Server.release_calls ctx).filter (fun c => decide (c.handle ≠ 0)) := by
  unfold Server.cleanup_rdma_resources Server.release_calls
  simp only [ite_append_singleton, List.nil_append]
  simp only [filter_handle_cons, List.filter_nil]
  simp only [Call.handle, List.append_assoc, List.append_nil]

/-- The client's `cleanup_rdma_resources` issues the release calls of the non-null
handles, in the order of `Client.release_calls`. -/
theorem client_cleanup_eq_filter (ctx : rdma_context) :
    Client.cleanup_rdma_resources ctx =
      (Client.release_calls ctx).filter (fun c => decide (c.handle ≠ 0)) := by
  unfold Client.cleanup_rdma_resources Client.release_calls
  simp only [ite_append_singleton, List.nil_append]
  simp only [filter_handle_cons, List.filter_nil]
  simp only [Call.handle, List.append_assoc, List.append_nil]

/-- C6. For every endpoint state, the server's `cleanup_rdma_resources` issues
exactly the release calls whose handle is non-null, in the relative order queue
pair, memory region, completion queue, protection domain, device context,
buffer, connection-management identifier; the client's does the same for the
first six; on the zero-initialised endpoint neither issues any call. -/
theorem C6_cleanup_releases_nonnull_in_order (ctx : rdma_context) :
    Server.cleanup_rdma_resources ctx =
        [Call.ibv_destroy_qp ctx.qp, Call.ibv_dereg_mr ctx.mr, Call.ibv_destroy_cq ctx.cq,
         Call.ibv_dealloc_pd ctx.pd, Call.ibv_close_device ctx.context, Call.free ctx.buffer,
         Call.rdma_destroy_id ctx.cm_id].filter (fun c => decide (c.handle ≠ 0)) ∧
      Client.cleanup_rdma_resources ctx =
        [Call.ibv_destroy_qp ctx.qp, Call.ibv_dereg_mr ctx.mr, Call.ibv_destroy_cq ctx.cq,
         Call.ibv_dealloc_pd ctx.pd, Call.ibv_close_device ctx.context, Call.free ctx.buffer].filter
          (fun c => decide (c.handle ≠ 0)) ∧
      Server.cleanup_rdma_resources rdma_context.zero = [] ∧
      Client.cleanup_rdma_resources rdma_context.zero = [] :=
  ⟨server_cleanup_eq_filter ctx, client_cleanup_eq_filter ctx, by decide, by decide⟩

/-- C7, counterexample.  After the setup in which every step succeeds, the
resources were created in the order device context, protection domain,
completion queue, buffer, memory region, queue pair, and teardown releases them
in the order queue pair, memory region, completion queue, protection domain,
device context, buffer, which is not the reverse of the creation order. -/
theorem C7_counterexample_release_not_reverse :
    (setup_rdma_resources env_setup_ok rdma_context.zero).ret = 0 ∧
      creation_order (setup_rdma_resources env_setup_ok rdma_context.zero).calls =
        [Resource.device_context, Resource.protection_domain, Resource.completion_queue,
         Resource.buffer, Resource.memory_region, Resource.queue_pair] ∧
      release_order (Server.cleanup_rdma_resources
          (setup_rdma_resources env_setup_ok rdma_context.zero).ctx) =
        [Resource.queue_pair, Resource.memory_region, Resource.completion_queue,
         Resource.protection_domain, Resource.device_context, Resource.buffer] ∧
      release_order (Server.cleanup_rdma_resources
          (setup_rdma_resources env_setup_ok rdma_context.zero).ctx) ≠
        (creation_order (setup_rdma_resources env_setup_ok rdma_context.zero).calls).reverse := by
  decide

/-- C7, amended.  After every successful run of `setup_rdma_resources`, which
creates device context, protection domain, completion queue, buffer, memory
region, queue pair in this order, `cleanup_rdma_resources` (server and client)
releases them in the order queue pair, memory region, completion queue,
protection domain, device context, buffer: the reverse of the creation order
except that the buffer is released last. -/
theorem C7_release_order_after_setup (senv : SetupEnv) (ctx : rdma_context)
    (h : (setup_rdma_resources senv ctx).ret = 0) :
    creation_order (setup_rdma_resources senv ctx).calls =
        [Resource.device_context, Resource.protection_domain, Resource.completion_queue,
         Resource.buffer, Resource.memory_region, Resource.queue_pair] ∧
      release_order (Server.cleanup_rdma_resources (setup_rdma_resources senv ctx).ctx) =
        [Resource.queue_pair, Resource.memory_region, Resource.completion_queue,
         Resource.protection_domain, Resource.device_context, Resource.buffer] ∧
      release_order (Client.cleanup_rdma_resources (setup_rdma_resources senv ctx).ctx) =
        [Resource.queue_pair, Resource.memory_region, Resource.completion_queue,
         Resource.protection_domain, Resource.device_context, Resource.buffer] := by
  rcases setup_rdma_resources_cases senv ctx with ⟨hr, _⟩ | ⟨_, hok, hc, hx⟩
  · rw [hr] at h
    exact absurd h (by decide)
  · obtain ⟨_, _, h3, h4, _, _, h7, h8, h9, h10⟩ := hok
    rw [hc, hx]
    refine ⟨by decide, ?_, ?_⟩
    · by_cases hcm : ctx.cm_id = 0 <;>
        simp [Server.cleanup_rdma_resources, release_order, Call.releases, h3, h4, h7, h8, h9,
          h10, hcm]
    · simp [Client.cleanup_rdma_resources, release_order, Call.releases, h3, h4, h7, h8, h9, h10]

/-- C7 amended, at the setup in which every step succeeds. -/
theorem C7_release_order_after_setup_witness :
    creation_order (setup_rdma_resources env_setup_ok rdma_context.zero).calls =
        [Resource.device_context, Resource.protection_domain, Resource.completion_queue,
         Resource.buffer, Resource.memory_region, Resource.queue_pair] ∧
      release_order (Server.cleanup_rdma_resources
          (setup_rdma_resources env_setup_ok rdma_context.zero).ctx) =
        [Resource.queue_pair, Resource.memory_region, Resource.completion_queue,
         Resource.protection_domain, Resource.device_context, Resource.buffer] ∧
      release_order (Client.cleanup_rdma_resources
          (setup_rdma_resources env_setup_ok rdma_context.zero).ctx) =
        [Resource.queue_pair, Resource.memory_region, Resource.completion_queue,
         Resource.protection_domain, Resource.device_context, Resource.buffer] :=
  C7_release_order_after_setup env_setup_ok rdma_context.zero (by decide)

/-- C8, counterexample.  On the endpoint left by a successful setup, the second
of two calls of `cleanup_rdma_resources` issues all six release calls again. -/
theorem C8_counterexample_second_cleanup_releases_again :
    (Server.cleanup_twice (setup_rdma_resources env_setup_ok rdma_context.zero).ctx).2 =
        [Call.ibv_destroy_qp 7, Call.ibv_dereg_mr 6, Call.ibv_destroy_cq 4,
         Call.ibv_dealloc_pd 3, Call.ibv_close_device 2, Call.free 5] ∧
      (Client.cleanup_twice (setup_rdma_resources env_setup_ok rdma_context.zero).ctx).2 =
        [Call.ibv_destroy_qp 7, Call.ibv_dereg_mr 6, Call.ibv_destroy_cq 4,
         Call.ibv_dealloc_pd 3, Call.ibv_close_device 2, Call.free 5] := by
  decide

/-- C8, amended.  `cleanup_rdma_resources` clears no handle: of two calls in a
row the second issues the same release calls as the first, and it issues none
exactly when every handle of the endpoint is null. -/
theorem C8_second_cleanup_repeats_first (ctx : rdma_context) :
    (Server.cleanup_twice ctx).2 = (Server.cleanup_twice ctx).1 ∧
      (Client.cleanup_twice ctx).2 = (Client.cleanup_twice ctx).1 ∧
      ((Server.cleanup_twice ctx).2 = [] ↔
        ctx.qp = 0 ∧ ctx.mr = 0 ∧ ctx.cq = 0 ∧ ctx.pd = 0 ∧ ctx.context = 0 ∧ ctx.buffer = 0 ∧
          ctx.cm_id = 0) ∧
      ((Client.cleanup_twice ctx).2 = [] ↔
        ctx.qp = 0 ∧ ctx.mr = 0 ∧ ctx.cq = 0 ∧ ctx.pd = 0 ∧ ctx.context = 0 ∧
          ctx.buffer = 0) := by
  refine ⟨rfl, rfl, ?_, ?_⟩
  · show Server.cleanup_rdma_resources ctx = [] ↔ _
    rw [server_cleanup_eq_filter, List.filter_eq_nil_iff]
    simp [Server.release_calls, Call.handle]
  · show Client.cleanup_rdma_resources ctx = [] ↔ _
    rw [client_cleanup_eq_filter, List.filter_eq_nil_iff]
    simp [Client.release_calls, Call.handle]

/-- C9. The function `setup_rdma_connection` returns `0` with `connected = 1` if
and only if every connection-management call succeeds, the first event is
connect-request, the second is established, and both queue-pair modifications
succeed, and it has then made all calls of the handshake; in every other case
it returns `-1`, leaves `connected` as it was, and its calls end with the call
of the first failing step (no later step is performed). -/
theorem C9_connection_established_iff (env : ConnEnv) (ctx : rdma_context) :
    (((setup_rdma_connection env ctx).ret = 0 ∧
          (setup_rdma_connection env ctx).ctx.connected = 1) ↔
        (env.create_id = 0 ∧ env.getaddrinfo = 0 ∧ env.bind_addr = 0 ∧ env.listen = 0 ∧
          env.get_cm_event1 = 0 ∧ env.event1 = RDMA_CM_EVENT_CONNECT_REQUEST ∧ env.accept = 0 ∧
          env.get_cm_event2 = 0 ∧ env.event2 = RDMA_CM_EVENT_ESTABLISHED ∧
          env.modify_rtr = 0 ∧ env.modify_rts = 0)) ∧
      ((env.ok ∧ (setup_rdma_connection env ctx).ret = 0 ∧
          (setup_rdma_connection env ctx).ctx.connected = 1 ∧
          (setup_rdma_connection env ctx).calls = handshake_calls) ∨
        (¬ env.ok ∧ (setup_rdma_connection env ctx).ret = -1 ∧
          (setup_rdma_connection env ctx).ctx.connected = ctx.connected ∧
          env.first_failure < 9 ∧
          (setup_rdma_connection env ctx).calls =
            handshake_calls.take (env.first_failure + 1))) := by
  rcases setup_rdma_connection_cases env ctx with
    ⟨hr, hnok, hconn, hff, hcalls⟩ | ⟨hr, hok, hconn, hcalls⟩
  · refine ⟨⟨fun h => ?_, fun h => absurd h hnok⟩, Or.inr ⟨hnok, hr, hconn, hff, hcalls⟩⟩
    have h1 := h.1
    rw [hr] at h1
    exact absurd h1 (by decide)
  · exact ⟨⟨fun _ => hok, fun _ => ⟨hr, hconn⟩⟩, Or.inl ⟨hok, hr, hconn, hcalls⟩⟩

/-- No call of `setup_rdma_resources` is a post. -/
theorem setup_rdma_resources_no_post (env : SetupEnv) (ctx : rdma_context) :
    (setup_rdma_resources env ctx).calls.countP Call.isPost = 0 := by
  rcases setup_rdma_resources_cases env ctx with ⟨_, _, n, hn, hc⟩ | ⟨_, _, hc, _⟩
  · rw [hc]
    interval_cases n <;> rfl
  · rw [hc]; rfl

/-- No call of `setup_rdma_connection` is a post. -/
theorem setup_rdma_connection_no_post (env : ConnEnv) (ctx : rdma_context) :
    (setup_rdma_connection env ctx).calls.countP Call.isPost = 0 := by
  rcases setup_rdma_connection_cases env ctx with ⟨_, _, _, hff, hc⟩ | ⟨_, _, _, hc⟩
  · rw [hc]
    generalize env.first_failure = k at hff
    interval_cases k <;> rfl
  · rw [hc]; rfl

/-- No call of the server's `cleanup_rdma_resources` is a post. -/
theorem server_cleanup_no_post (ctx : rdma_context) :
    (Server.cleanup_rdma_resources ctx).countP Call.isPost = 0 := by
  rw [server_cleanup_eq_filter, List.countP_eq_zero]
  intro c hc
  have hm := (List.mem_filter.mp hc).1
  simp only [Server.release_calls, List.mem_cons, List.mem_singleton, List.not_mem_nil,
    or_false] at hm
  rcases hm with h | h | h | h | h | h | h <;> rw [h] <;> simp [Call.isPost]

/-- C10, counterexample.  The client's `main` never runs a handshake: it enters
`perform_rdma_operations` with `connected = 0`, and work requests are posted
all the same (two of them in this run). -/
theorem C10_counterexample_client_posts_unconnected :
    ∃ m, Client.main env_setup_ok env_cancel_in_poll 4 = some m ∧
      m.at_transfer.map rdma_context.connected = some 0 ∧
      m.calls.countP Call.isPost = 2 :=
  ⟨_, rfl, rfl, rfl⟩

/-- C10, amended.  In every execution of the server program in which a work
request is posted, `perform_rdma_operations` was entered, and it was entered
with `connected = 1` (after `setup_rdma_connection` returned `0`). -/
theorem C10_server_posts_only_when_connected (senv : SetupEnv) (cenv : ConnEnv)
    (tenv : TransferEnv) (fuel : Nat) (m : MainResult)
    (h : Server.main senv cenv tenv fuel = some m)
    (hpost : 0 < m.calls.countP Call.isPost) :
    ∃ c, m.at_transfer = some c ∧ c.connected = 1 := by
  unfold Server.main at h
  by_cases h1 : (setup_rdma_resources senv rdma_context.zero).ret ≠ 0
  · rw [if_pos h1] at h
    simp only [Option.some.injEq] at h
    rw [← h] at hpost
    simp only [List.countP_append, setup_rdma_resources_no_post, server_cleanup_no_post] at hpost
    exact absurd hpost (by decide)
  · rw [if_neg h1] at h
    by_cases h2 : (setup_rdma_connection cenv
        (setup_rdma_resources senv rdma_context.zero).ctx).ret ≠ 0
    · rw [if_pos h2] at h
      simp only [Option.some.injEq] at h
      rw [← h] at hpost
      simp only [List.countP_append, setup_rdma_resources_no_post,
        setup_rdma_connection_no_post, server_cleanup_no_post] at hpost
      exact absurd hpost (by decide)
    · rw [if_neg h2] at h
      cases ht : Server.perform_rdma_operations tenv fuel
          (setup_rdma_connection cenv (setup_rdma_resources senv rdma_context.zero).ctx).ctx with
      | none => rw [ht] at h; exact absurd h (by simp)
      | some t =>
        rw [ht] at h
        simp only [Option.some.injEq] at h
        refine ⟨_, by rw [← h], ?_⟩
        rcases setup_rdma_connection_cases cenv
            (setup_rdma_resources senv rdma_context.zero).ctx with ⟨hr, _⟩ | ⟨_, _, hconn, _⟩
        · exact absurd hr (by
            intro hneg
            exact h2 (by rw [hneg]; decide))
        · exact hconn

/-- C10 amended, at a run of the server in which every setup and handshake call
succeeds and two work requests are posted. -/
theorem C10_server_posts_only_when_connected_witness :
    ∃ m, Server.main env_setup_ok env_conn_ok env_cancel_in_poll 4 = some m ∧
      0 < m.calls.countP Call.isPost ∧
      ∃ c, m.at_transfer = some c ∧ c.connected = 1 :=
  ⟨_, rfl, by decide, C10_server_posts_only_when_connected env_setup_ok env_conn_ok
    env_cancel_in_poll 4 _ rfl (by decide)⟩

/-- C11, the behaviour of the code.  In `setup_rdma_resources` the device list is
released once when the function returns `0` and not at all when it returns
`-1`: every failure after the device list was obtained leaves it unreleased.
So it is at the provider on which the device is opened and the allocation of
the protection domain fails: the calls are `ibv_get_device_list`,
`ibv_open_device`, `ibv_alloc_pd`, and no `ibv_free_device_list`. -/
theorem C11_device_list_released_only_on_success :
    (∀ (env : SetupEnv) (ctx : rdma_context),
        (setup_rdma_resources env ctx).calls.count Call.ibv_free_device_list =
          if (setup_rdma_resources env ctx).ret = 0 then 1 else 0) ∧
      (setup_rdma_resources env_pd_fails rdma_context.zero).ret = -1 ∧
      (setup_rdma_resources env_pd_fails rdma_context.zero).ctx.context = 2 ∧
      (setup_rdma_resources env_pd_fails rdma_context.zero).calls =
        [Call.ibv_get_device_list, Call.ibv_open_device, Call.ibv_alloc_pd] := by
  refine ⟨?_, by decide, by decide, by decide⟩
  intro env ctx
  rcases setup_rdma_resources_cases env ctx with ⟨hr, _, n, hn, hc⟩ | ⟨hr, _, hc, _⟩
  · rw [hc, hr]
    interval_cases n <;> decide
  · rw [hc, hr]
    decide

/-- C12. If the `running` flag is read as cleared by the first test of the loop
condition, `perform_rdma_operations` returns with a report, having made no call
(no post, no poll); the reported operation count is `0` and `bytes_transferred`
is what it was at entry. -/
theorem C12_cancelled_before_first_post (iterations : Nat) (env : TransferEnv) (fuel : Nat)
    (ctx : rdma_context) (hfuel : 0 < fuel) (h : env.running_top 0 = false) :
    ∃ r, perform_rdma_operations iterations env fuel ctx = some r ∧
      r.calls = [] ∧ r.report.operations = 0 ∧
      r.report.bytes = ctx.bytes_transferred ∧
      r.ctx.bytes_transferred = ctx.bytes_transferred := by
  obtain ⟨g, rfl⟩ : ∃ g, fuel = g + 1 := ⟨fuel - 1, by omega⟩
  have hstep : loop_iteration iterations env (g + 1) (loop_entry env ctx) =
      some (.exit (loop_entry env ctx)) := by
    unfold loop_iteration
    rw [if_neg]
    rintro ⟨_, h2⟩
    have h3 : env.running_top 0 = true := h2
    rw [h] at h3
    exact Bool.noConfusion h3
  have hloop := transfer_loop_exit iterations env (g + 1) g (loop_entry env ctx)
    (loop_entry env ctx) hstep
  obtain ⟨r, hr, hops, hbytes, hctx, hcalls⟩ :=
    perform_of_transfer_loop iterations env (g + 1) ctx (loop_entry env ctx) hloop
  exact ⟨r, hr, hcalls, hops, hbytes, hctx⟩

/-- C12, at the client's budget and the zeroed endpoint, with the flag cleared at
entry. -/
theorem C12_cancelled_before_first_post_witness :
    ∃ r, perform_rdma_operations 100 env_zero_duration 1 rdma_context.zero = some r ∧
      r.calls = [] ∧ r.report.operations = 0 ∧
      r.report.bytes = rdma_context.zero.bytes_transferred ∧
      r.ctx.bytes_transferred = rdma_context.zero.bytes_transferred :=
  C12_cancelled_before_first_post 100 env_zero_duration 1 rdma_context.zero (by decide) rfl

/-- C13. In `simple_rdma_example.c`, `init_rdma_context` returns `0` when every
step succeeds and `-1` otherwise.  The resources it has acquired when it returns
are an initial segment of: device list, device context, protection domain,
buffer, memory region, completion queue, queue pair.  When it returns `-1` (at
whichever step: device list, empty list, open device, PD, buffer, MR, CQ, QP)
the resources it has released are exactly the acquired ones, each once, in the
reverse of the order of acquisition, so ending with the device list whenever one
was obtained; when it returns `0` it has acquired all seven and released the
device list only, once. -/
theorem C13_init_releases_acquired_in_reverse (env : Example.InitEnv)
    (ctx : Example.rdma_context) :
    ((Example.init_rdma_context env ctx).ret = 0 ∨
        (Example.init_rdma_context env ctx).ret = -1) ∧
      ((Example.init_rdma_context env ctx).ret = 0 ↔ env.ok) ∧
      (∃ k, k ≤ 7 ∧
        Example.acquired (Example.init_rdma_context env ctx).calls = env.acquisitions.take k) ∧
      ((Example.init_rdma_context env ctx).ret = -1 →
        Example.released (Example.init_rdma_context env ctx).calls =
          (Example.acquired (Example.init_rdma_context env ctx).calls).reverse) ∧
      ((Example.init_rdma_context env ctx).ret = 0 →
        Example.acquired (Example.init_rdma_context env ctx).calls = env.acquisitions ∧
        Example.released (Example.init_rdma_context env ctx).calls =
          [(Example.Resource.device_list, env.dev_list)]) ∧
      (env.dev_list ≠ 0 →
        (Example.released (Example.init_rdma_context env ctx).calls).getLast? =
          some (Example.Resource.device_list, env.dev_list)) := by
  by_cases h1 : env.dev_list = 0
  · refine ⟨?_, ?_, ⟨0, by decide, ?_⟩, ?_, ?_, ?_⟩ <;>
      simp [Example.init_rdma_context, Example.acquired, Example.released, Example.Call.acquired,
        Example.Call.released, Example.InitEnv.ok, Example.InitEnv.acquisitions,
        h1]
  by_cases h2 : env.num_devices = 0
  · refine ⟨?_, ?_, ⟨1, by decide, ?_⟩, ?_, ?_, ?_⟩ <;>
      simp [Example.init_rdma_context, Example.acquired, Example.released, Example.Call.acquired,
        Example.Call.released, Example.InitEnv.ok, Example.InitEnv.acquisitions,
        h1, h2]
  by_cases h3 : env.open_device = 0
  · refine ⟨?_, ?_, ⟨1, by decide, ?_⟩, ?_, ?_, ?_⟩ <;>
      simp [Example.init_rdma_context, Example.acquired, Example.released, Example.Call.acquired,
        Example.Call.released, Example.InitEnv.ok, Example.InitEnv.acquisitions,
        h1, h2, h3]
  by_cases h4 : env.alloc_pd = 0
  · refine ⟨?_, ?_, ⟨2, by decide, ?_⟩, ?_, ?_, ?_⟩ <;>
      simp [Example.init_rdma_context, Example.acquired, Example.released, Example.Call.acquired,
        Example.Call.released, Example.InitEnv.ok, Example.InitEnv.acquisitions,
        h1, h2, h3, h4]
  by_cases h5 : env.malloc = 0
  · refine ⟨?_, ?_, ⟨3, by decide, ?_⟩, ?_, ?_, ?_⟩ <;>
      simp [Example.init_rdma_context, Example.acquired, Example.released, Example.Call.acquired,
        Example.Call.released, Example.InitEnv.ok, Example.InitEnv.acquisitions,
        h1, h2, h3, h4, h5]
  by_cases h6 : env.reg_mr = 0
  · refine ⟨?_, ?_, ⟨4, by decide, ?_⟩, ?_, ?_, ?_⟩ <;>
      simp [Example.init_rdma_context, Example.acquired, Example.released, Example.Call.acquired,
        Example.Call.released, Example.InitEnv.ok, Example.InitEnv.acquisitions,
        h1, h2, h3, h4, h5, h6]
  by_cases h7 : env.create_cq = 0
  · refine ⟨?_, ?_, ⟨5, by decide, ?_⟩, ?_, ?_, ?_⟩ <;>
      simp [Example.init_rdma_context, Example.acquired, Example.released, Example.Call.acquired,
        Example.Call.released, Example.InitEnv.ok, Example.InitEnv.acquisitions,
        h1, h2, h3, h4, h5, h6, h7]
  by_cases h8 : env.create_qp = 0
  · refine ⟨?_, ?_, ⟨6, by decide, ?_⟩, ?_, ?_, ?_⟩ <;>
      simp [Example.init_rdma_context, Example.acquired, Example.released, Example.Call.acquired,
        Example.Call.released, Example.InitEnv.ok, Example.InitEnv.acquisitions,
        h1, h2, h3, h4, h5, h6, h7, h8]
  · refine ⟨?_, ?_, ⟨7, by decide, ?_⟩, ?_, ?_, ?_⟩ <;>
      simp [Example.init_rdma_context, Example.acquired, Example.released, Example.Call.acquired,
        Example.Call.released, Example.InitEnv.ok, Example.InitEnv.acquisitions,
        h1, h2, h3, h4, h5, h6, h7, h8]

end RdmaDemo
